import Mathlib

/-
Verification of the VibeGB emulator core (crates/core/src/emu.rs).

The Rust core is shallowly embedded: every struct becomes a Lean structure,
every method a Lean function threading the mutated state explicitly.  Machine
integers are modelled as Nat with explicit `% 256` / `% 65536` wrapping at the
points where the Rust code wraps (u8 / u16 arithmetic); bitwise operators map
to Nat bitwise operators.  Rust `Option` becomes `Option`, `Result` becomes
`Except`.
-/

namespace VibeGB

set_option maxRecDepth 8000

def DIV_ADDR : Nat := 0xFF04

def TIMA_ADDR : Nat := 0xFF05

def TMA_ADDR : Nat := 0xFF06

def TAC_ADDR : Nat := 0xFF07

def IF_ADDR : Nat := 0xFF0F

def IE_ADDR : Nat := 0xFFFF

def SB_ADDR : Nat := 0xFF01

def SC_ADDR : Nat := 0xFF02

def INTERRUPT_VBLANK : Nat := 0x01

def INTERRUPT_LCD : Nat := 0x02

def INTERRUPT_TIMER : Nat := 0x04

def INTERRUPT_SERIAL : Nat := 0x08

def INTERRUPT_JOYPAD : Nat := 0x10

def FLAG_Z : Nat := 0x80

def FLAG_N : Nat := 0x40

def FLAG_H : Nat := 0x20

def FLAG_C : Nat := 0x10

inductive EmuError where
  | IllegalOpcode (opcode : Nat)
deriving DecidableEq

instance : DecidableEq (Except EmuError Nat)
  | .ok a, .ok b =>
    if h : a = b then .isTrue (by rw [h]) else .isFalse (by simp [h])
  | .ok _, .error _ => .isFalse (by simp)
  | .error _, .ok _ => .isFalse (by simp)
  | .error a, .error b =>
    if h : a = b then .isTrue (by rw [h]) else .isFalse (by simp [h])

structure Registers where
  a : Nat
  b : Nat
  c : Nat
  d : Nat
  e : Nat
  h : Nat
  l : Nat
  f : Nat
deriving DecidableEq

def Registers.init : Registers := ⟨0, 0, 0, 0, 0, 0, 0, 0⟩

def Registers.af (r : Registers) : Nat := 256 * r.a + (r.f &&& 0xF0)

def Registers.set_af (r : Registers) (value : Nat) : Registers :=
  { r with a := (value >>> 8) &&& 0xFF, f := value &&& 0xF0 }

def Registers.bc (r : Registers) : Nat := 256 * r.b + r.c

def Registers.set_bc (r : Registers) (value : Nat) : Registers :=
  { r with b := (value >>> 8) &&& 0xFF, c := value &&& 0xFF }

def Registers.de (r : Registers) : Nat := 256 * r.d + r.e

def Registers.set_de (r : Registers) (value : Nat) : Registers :=
  { r with d := (value >>> 8) &&& 0xFF, e := value &&& 0xFF }

def Registers.hl (r : Registers) : Nat := 256 * r.h + r.l

def Registers.set_hl (r : Registers) (value : Nat) : Registers :=
  { r with h := (value >>> 8) &&& 0xFF, l := value &&& 0xFF }

def Registers.flag_z (r : Registers) : Bool := r.f &&& FLAG_Z != 0

def Registers.flag_n (r : Registers) : Bool := r.f &&& FLAG_N != 0

def Registers.flag_h (r : Registers) : Bool := r.f &&& FLAG_H != 0

def Registers.flag_c (r : Registers) : Bool := r.f &&& FLAG_C != 0

def Registers.set_flag (r : Registers) (mask : Nat) (value : Bool) : Registers :=
  let f1 := if value then r.f ||| mask else r.f &&& (mask ^^^ 0xFF)
  { r with f := f1 &&& 0xF0 }

def Registers.set_z (r : Registers) (value : Bool) : Registers := r.set_flag FLAG_Z value

def Registers.set_n (r : Registers) (value : Bool) : Registers := r.set_flag FLAG_N value

def Registers.set_h (r : Registers) (value : Bool) : Registers := r.set_flag FLAG_H value

def Registers.set_c (r : Registers) (value : Bool) : Registers := r.set_flag FLAG_C value

structure Timer where
  divider : Nat
  tima : Nat
  tma : Nat
  tac : Nat
  overflow_reload_delay : Option Nat
deriving DecidableEq

def Timer.init : Timer := ⟨0, 0, 0, 0, none⟩

def Timer.div (t : Timer) : Nat := (t.divider >>> 8) &&& 0xFF

def Timer.tac_read (t : Timer) : Nat := 0xF8 ||| (t.tac &&& 0x07)

def Timer.selected_bit (t : Timer) : Nat :=
  match t.tac &&& 0x03 with
  | 0 => 9
  | 1 => 3
  | 2 => 5
  | _ => 7

def Timer.timer_input (t : Timer) (divider : Nat) : Bool :=
  (t.tac &&& 0x04 != 0) && (divider &&& (1 <<< t.selected_bit) != 0)

def Timer.increment_tima (t : Timer) : Timer :=
  if t.tima = 0xFF then
    { t with tima := 0x00, overflow_reload_delay := some 4 }
  else
    { t with tima := (t.tima + 1) % 256 }

def Timer.write_div (t : Timer) : Timer :=
  let previous_input := t.timer_input t.divider
  let t1 := { t with divider := 0 }
  let next_input := t1.timer_input t1.divider
  if previous_input && !next_input then t1.increment_tima else t1

def Timer.write_tima (t : Timer) (value : Nat) : Timer :=
  { t with tima := value, overflow_reload_delay := none }

def Timer.write_tma (t : Timer) (value : Nat) : Timer :=
  { t with tma := value }

def Timer.write_tac (t : Timer) (value : Nat) : Timer :=
  let previous_input := t.timer_input t.divider
  let t1 := { t with tac := value &&& 0x07 }
  let next_input := t1.timer_input t1.divider
  if previous_input && !next_input then t1.increment_tima else t1

def Timer.handle_reload (t : Timer) (interrupt_flags : Nat) : Timer × Nat :=
  match t.overflow_reload_delay with
  | none => (t, interrupt_flags)
  | some delay =>
    if delay = 0 then
      if t.tima = 0 then
        ({ t with tima := t.tma, overflow_reload_delay := none },
          interrupt_flags ||| INTERRUPT_TIMER)
      else
        ({ t with overflow_reload_delay := none }, interrupt_flags)
    else
      ({ t with overflow_reload_delay := some (delay - 1) }, interrupt_flags)

def Timer.tick_one (t : Timer) (interrupt_flags : Nat) : Timer × Nat :=
  let previous_input := t.timer_input t.divider
  let t1 := { t with divider := (t.divider + 1) % 65536 }
  let next_input := t1.timer_input t1.divider
  let t2 := if previous_input && !next_input then t1.increment_tima else t1
  t2.handle_reload interrupt_flags

def Timer.tick (t : Timer) (cycles : Nat) (interrupt_flags : Nat) : Timer × Nat :=
  match cycles with
  | 0 => (t, interrupt_flags)
  | n + 1 =>
    let p := t.tick_one interrupt_flags
    p.1.tick n p.2

def setMem (m : Nat → Nat) (address value : Nat) : Nat → Nat :=
  fun x => if x = address then value else m x

structure Bus where
  memory : Nat → Nat
  timer : Timer
  interrupt_enable : Nat
  interrupt_flags : Nat
  serial_output : List Nat

def Bus.init : Bus :=
  { memory := fun _ => 0
    timer := Timer.init
    interrupt_enable := 0
    interrupt_flags := 0
    serial_output := [] }

def Bus.read_byte (bus : Bus) (address : Nat) : Nat :=
  if address = DIV_ADDR then bus.timer.div
  else if address = TIMA_ADDR then bus.timer.tima
  else if address = TMA_ADDR then bus.timer.tma
  else if address = TAC_ADDR then bus.timer.tac_read
  else if address = IF_ADDR then 0xE0 ||| (bus.interrupt_flags &&& 0x1F)
  else if address = IE_ADDR then bus.interrupt_enable &&& 0x1F
  else bus.memory address

def Bus.write_byte (bus : Bus) (address value : Nat) : Bus :=
  if address = DIV_ADDR then { bus with timer := bus.timer.write_div }
  else if address = TIMA_ADDR then { bus with timer := bus.timer.write_tima value }
  else if address = TMA_ADDR then { bus with timer := bus.timer.write_tma value }
  else if address = TAC_ADDR then { bus with timer := bus.timer.write_tac value }
  else if address = IF_ADDR then { bus with interrupt_flags := value &&& 0x1F }
  else if address = IE_ADDR then { bus with interrupt_enable := value &&& 0x1F }
  else if address = SB_ADDR then { bus with memory := setMem bus.memory SB_ADDR value }
  else if address = SC_ADDR then
    let mem1 := setMem bus.memory SC_ADDR value
    -- value & !0x80 on u8 is value &&& 0x7F
    if value &&& 0x81 = 0x81 then
      { bus with
          memory := setMem mem1 SC_ADDR (value &&& 0x7F)
          serial_output := bus.serial_output ++ [mem1 SB_ADDR] }
    else
      { bus with memory := mem1 }
  else { bus with memory := setMem bus.memory address value }

def Bus.read_word (bus : Bus) (address : Nat) : Nat :=
  let lo := bus.read_byte address
  let hi := bus.read_byte ((address + 1) % 65536)
  lo + 256 * hi

def Bus.write_word (bus : Bus) (address value : Nat) : Bus :=
  let lo := value &&& 0xFF
  let hi := (value >>> 8) &&& 0xFF
  (bus.write_byte address lo).write_byte ((address + 1) % 65536) hi

/-- loadList copies the bytes of data into memory starting at start,
truncating at the 64 KiB boundary, as Bus::load_bytes does. -/
def loadList (m : Nat → Nat) (start : Nat) : List Nat → (Nat → Nat)
  | [] => m
  | v :: rest =>
    if start < 0x10000 then loadList (setMem m start v) (start + 1) rest else m

def Bus.load_bytes (bus : Bus) (start : Nat) (data : List Nat) : Bus :=
  { bus with memory := loadList bus.memory start data }

def Bus.tick (bus : Bus) (cycles : Nat) : Bus :=
  let p := bus.timer.tick cycles bus.interrupt_flags
  { bus with timer := p.1, interrupt_flags := p.2 }

def Bus.pending_interrupts (bus : Bus) : Nat :=
  bus.interrupt_enable &&& bus.interrupt_flags &&& 0x1F

def Bus.request_interrupt (bus : Bus) (mask : Nat) : Bus :=
  { bus with interrupt_flags := bus.interrupt_flags ||| (mask &&& 0x1F) }

def Bus.clear_interrupt (bus : Bus) (mask : Nat) : Bus :=
  -- flags & !(mask & 0x1F) on u8
  { bus with interrupt_flags := bus.interrupt_flags &&& ((mask &&& 0x1F) ^^^ 0xFF) }

def Bus.take_serial_output (bus : Bus) : Bus × List Nat :=
  ({ bus with serial_output := [] }, bus.serial_output)

structure Cpu where
  regs : Registers
  pc : Nat
  sp : Nat
  ime : Bool
  halted : Bool
  stopped : Bool
  ime_delay : Nat
  halt_bug : Bool
deriving DecidableEq

def Cpu.init : Cpu :=
  { regs := Registers.init
    pc := 0x0000
    sp := 0xFFFE
    ime := false
    halted := false
    stopped := false
    ime_delay := 0
    halt_bug := false }

/-- One execute / step outcome: the updated CPU, the updated bus, and the
Result value (cycle count or error). -/
structure ExecResult where
  cpu : Cpu
  bus : Bus
  result : Except EmuError Nat

def Cpu.fetch_byte (cpu : Cpu) (bus : Bus) : Cpu × Nat :=
  if cpu.halt_bug then
    ({ cpu with halt_bug := false }, bus.read_byte cpu.pc)
  else
    ({ cpu with pc := (cpu.pc + 1) % 65536 }, bus.read_byte cpu.pc)

def Cpu.fetch_word (cpu : Cpu) (bus : Bus) : Cpu × Nat :=
  let p1 := cpu.fetch_byte bus
  let p2 := p1.1.fetch_byte bus
  (p2.1, p1.2 + 256 * p2.2)

def Cpu.push_word (cpu : Cpu) (bus : Bus) (value : Nat) : Cpu × Bus :=
  let lo := value &&& 0xFF
  let hi := (value >>> 8) &&& 0xFF
  let sp1 := (cpu.sp + 65535) % 65536
  let bus1 := bus.write_byte sp1 hi
  let sp2 := (sp1 + 65535) % 65536
  let bus2 := bus1.write_byte sp2 lo
  ({ cpu with sp := sp2 }, bus2)

def Cpu.pop_word (cpu : Cpu) (bus : Bus) : Cpu × Nat :=
  let lo := bus.read_byte cpu.sp
  let sp1 := (cpu.sp + 1) % 65536
  let hi := bus.read_byte sp1
  ({ cpu with sp := (sp1 + 1) % 65536 }, lo + 256 * hi)

def Cpu.read_r8 (cpu : Cpu) (bus : Bus) (index : Nat) : Nat :=
  match index &&& 0x07 with
  | 0 => cpu.regs.b
  | 1 => cpu.regs.c
  | 2 => cpu.regs.d
  | 3 => cpu.regs.e
  | 4 => cpu.regs.h
  | 5 => cpu.regs.l
  | 6 => bus.read_byte cpu.regs.hl
  | _ => cpu.regs.a

def Cpu.write_r8 (cpu : Cpu) (bus : Bus) (index value : Nat) : Cpu × Bus :=
  match index &&& 0x07 with
  | 0 => ({ cpu with regs := { cpu.regs with b := value } }, bus)
  | 1 => ({ cpu with regs := { cpu.regs with c := value } }, bus)
  | 2 => ({ cpu with regs := { cpu.regs with d := value } }, bus)
  | 3 => ({ cpu with regs := { cpu.regs with e := value } }, bus)
  | 4 => ({ cpu with regs := { cpu.regs with h := value } }, bus)
  | 5 => ({ cpu with regs := { cpu.regs with l := value } }, bus)
  | 6 => (cpu, bus.write_byte cpu.regs.hl value)
  | _ => ({ cpu with regs := { cpu.regs with a := value } }, bus)

def Cpu.inc8 (cpu : Cpu) (value : Nat) : Cpu × Nat :=
  let result := (value + 1) % 256
  let r1 := cpu.regs.set_z (result == 0)
  let r2 := r1.set_n false
  let r3 := r2.set_h (decide (0x0F < (value &&& 0x0F) + 1))
  ({ cpu with regs := r3 }, result)

def Cpu.dec8 (cpu : Cpu) (value : Nat) : Cpu × Nat :=
  -- value.wrapping_sub(1) on u8
  let result := (value + 255) % 256
  let r1 := cpu.regs.set_z (result == 0)
  let r2 := r1.set_n true
  let r3 := r2.set_h ((value &&& 0x0F) == 0)
  ({ cpu with regs := r3 }, result)

def Cpu.add_a (cpu : Cpu) (value : Nat) (with_carry : Bool) : Cpu :=
  let carry_in := if with_carry && cpu.regs.flag_c then 1 else 0
  let a := cpu.regs.a
  let result := (a + value + carry_in) % 256
  let r1 := cpu.regs.set_z (result == 0)
  let r2 := r1.set_n false
  let r3 := r2.set_h (decide (0x0F < (a &&& 0x0F) + (value &&& 0x0F) + carry_in))
  let r4 := r3.set_c (decide (0xFF < a + value + carry_in))
  { cpu with regs := { r4 with a := result } }

def Cpu.sub_a (cpu : Cpu) (value : Nat) (with_carry : Bool) : Cpu :=
  let carry_in := if with_carry && cpu.regs.flag_c then 1 else 0
  let a := cpu.regs.a
  -- a.wrapping_sub(value).wrapping_sub(carry_in) on u8 (a, value < 256)
  let result := (a + 512 - value - carry_in) % 256
  let r1 := cpu.regs.set_z (result == 0)
  let r2 := r1.set_n true
  let r3 := r2.set_h (decide ((a &&& 0x0F) < (value &&& 0x0F) + carry_in))
  let r4 := r3.set_c (decide (a < value + carry_in))
  { cpu with regs := { r4 with a := result } }

def Cpu.and_a (cpu : Cpu) (value : Nat) : Cpu :=
  let a := cpu.regs.a &&& value
  let r0 := { cpu.regs with a := a }
  let r1 := r0.set_z (a == 0)
  let r2 := r1.set_n false
  let r3 := r2.set_h true
  let r4 := r3.set_c false
  { cpu with regs := r4 }

def Cpu.xor_a (cpu : Cpu) (value : Nat) : Cpu :=
  let a := cpu.regs.a ^^^ value
  let r0 := { cpu.regs with a := a }
  let r1 := r0.set_z (a == 0)
  let r2 := r1.set_n false
  let r3 := r2.set_h false
  let r4 := r3.set_c false
  { cpu with regs := r4 }

def Cpu.or_a (cpu : Cpu) (value : Nat) : Cpu :=
  let a := cpu.regs.a ||| value
  let r0 := { cpu.regs with a := a }
  let r1 := r0.set_z (a == 0)
  let r2 := r1.set_n false
  let r3 := r2.set_h false
  let r4 := r3.set_c false
  { cpu with regs := r4 }

def Cpu.cp_a (cpu : Cpu) (value : Nat) : Cpu :=
  let a := cpu.regs.a
  let result := (a + 256 - value) % 256
  let r1 := cpu.regs.set_z (result == 0)
  let r2 := r1.set_n true
  let r3 := r2.set_h (decide ((a &&& 0x0F) < (value &&& 0x0F)))
  let r4 := r3.set_c (decide (a < value))
  { cpu with regs := r4 }

def Cpu.add_hl (cpu : Cpu) (value : Nat) : Cpu :=
  let hl := cpu.regs.hl
  let result := (hl + value) % 65536
  let r1 := cpu.regs.set_n false
  let r2 := r1.set_h (decide (0x0FFF < (hl &&& 0x0FFF) + (value &&& 0x0FFF)))
  let r3 := r2.set_c (decide (0xFFFF < hl + value))
  { cpu with regs := r3.set_hl result }

def Cpu.daa (cpu : Cpu) : Cpu :=
  let carry := cpu.regs.flag_c
  let a := cpu.regs.a
  if !cpu.regs.flag_n then
    let correction1 := if cpu.regs.flag_h || decide (0x09 < (a &&& 0x0F)) then 0x06 else 0
    let correction2 := if carry || decide (0x99 < a) then correction1 ||| 0x60 else correction1
    let carry2 := carry || decide (0x99 < a)
    let a2 := (a + correction2) % 256
    let r0 := { cpu.regs with a := a2 }
    let r1 := r0.set_z (a2 == 0)
    let r2 := r1.set_h false
    let r3 := r2.set_c carry2
    { cpu with regs := r3 }
  else
    let correction1 := if cpu.regs.flag_h then 0x06 else 0
    let correction2 := if carry then correction1 ||| 0x60 else correction1
    let a2 := (a + 256 - correction2) % 256
    let r0 := { cpu.regs with a := a2 }
    let r1 := r0.set_z (a2 == 0)
    let r2 := r1.set_h false
    let r3 := r2.set_c carry
    { cpu with regs := r3 }

def Cpu.set_rotate_flags (cpu : Cpu) (result : Nat) (carry set_zero : Bool) : Cpu :=
  let r1 := cpu.regs.set_z (set_zero && result == 0)
  let r2 := r1.set_n false
  let r3 := r2.set_h false
  let r4 := r3.set_c carry
  { cpu with regs := r4 }

def Cpu.rlc (cpu : Cpu) (value : Nat) (set_zero : Bool) : Cpu × Nat :=
  let carry := value &&& 0x80 != 0
  let result := ((value <<< 1) &&& 0xFF) ||| (if carry then 1 else 0)
  (cpu.set_rotate_flags result carry set_zero, result)

def Cpu.rrc (cpu : Cpu) (value : Nat) (set_zero : Bool) : Cpu × Nat :=
  let carry := value &&& 0x01 != 0
  let result := (value >>> 1) ||| (if carry then 0x80 else 0)
  (cpu.set_rotate_flags result carry set_zero, result)

def Cpu.rl (cpu : Cpu) (value : Nat) (set_zero : Bool) : Cpu × Nat :=
  let carry_in := if cpu.regs.flag_c then 1 else 0
  let carry := value &&& 0x80 != 0
  let result := ((value <<< 1) &&& 0xFF) ||| carry_in
  (cpu.set_rotate_flags result carry set_zero, result)

def Cpu.rr (cpu : Cpu) (value : Nat) (set_zero : Bool) : Cpu × Nat :=
  let carry_in := if cpu.regs.flag_c then 0x80 else 0
  let carry := value &&& 0x01 != 0
  let result := (value >>> 1) ||| carry_in
  (cpu.set_rotate_flags result carry set_zero, result)

def Cpu.sla (cpu : Cpu) (value : Nat) : Cpu × Nat :=
  let carry := value &&& 0x80 != 0
  let result := (value <<< 1) &&& 0xFF
  (cpu.set_rotate_flags result carry true, result)

def Cpu.sra (cpu : Cpu) (value : Nat) : Cpu × Nat :=
  let carry := value &&& 0x01 != 0
  let result := (value >>> 1) ||| (value &&& 0x80)
  (cpu.set_rotate_flags result carry true, result)

def Cpu.srl (cpu : Cpu) (value : Nat) : Cpu × Nat :=
  let carry := value &&& 0x01 != 0
  let result := value >>> 1
  (cpu.set_rotate_flags result carry true, result)

def Cpu.swap (cpu : Cpu) (value : Nat) : Cpu × Nat :=
  -- value.rotate_left(4) on u8
  let result := ((value <<< 4) &&& 0xFF) ||| (value >>> 4)
  let r1 := cpu.regs.set_z (result == 0)
  let r2 := r1.set_n false
  let r3 := r2.set_h false
  let r4 := r3.set_c false
  ({ cpu with regs := r4 }, result)

/-- base.wrapping_add(offset as i16 as u16) where offset is an i8 stored as a
byte: sign extension adds 0xFF00 for bytes at or above 0x80. -/
def Cpu.add_signed_u16 (base offset : Nat) : Nat :=
  if offset < 0x80 then (base + offset) % 65536
  else (base + offset + 0xFF00) % 65536

def Cpu.add_sp_offset (sp offset : Nat) : Nat × Bool × Bool :=
  let signed := if offset < 0x80 then offset else offset + 0xFF00
  let result := (sp + signed) % 65536
  let half_carry := (sp ^^^ signed ^^^ result) &&& 0x0010 != 0
  let carry := (sp ^^^ signed ^^^ result) &&& 0x0100 != 0
  (result, half_carry, carry)

def Cpu.condition (cpu : Cpu) (code : Nat) : Bool :=
  match code &&& 0x03 with
  | 0 => !cpu.regs.flag_z
  | 1 => cpu.regs.flag_z
  | 2 => !cpu.regs.flag_c
  | _ => cpu.regs.flag_c

def Cpu.interrupt_vector (pending : Nat) : Nat × Nat :=
  if pending &&& INTERRUPT_VBLANK != 0 then (INTERRUPT_VBLANK, 0x40)
  else if pending &&& INTERRUPT_LCD != 0 then (INTERRUPT_LCD, 0x48)
  else if pending &&& INTERRUPT_TIMER != 0 then (INTERRUPT_TIMER, 0x50)
  else if pending &&& INTERRUPT_SERIAL != 0 then (INTERRUPT_SERIAL, 0x58)
  else (INTERRUPT_JOYPAD, 0x60)

def Cpu.service_interrupt (cpu : Cpu) (bus : Bus) : Cpu × Bus × Nat :=
  let cpu1 := { cpu with ime := false, ime_delay := 0, halted := false, stopped := false }
  let pc_lo := cpu1.pc &&& 0xFF
  let pc_hi := (cpu1.pc >>> 8) &&& 0xFF
  let sp1 := (cpu1.sp + 65535) % 65536
  let bus1 := bus.write_byte sp1 pc_hi
  let pending_after_hi := bus1.pending_interrupts
  if pending_after_hi = 0 then
    let sp2 := (sp1 + 65535) % 65536
    let bus2 := bus1.write_byte sp2 pc_lo
    ({ cpu1 with sp := sp2, pc := 0x0000 }, bus2, 20)
  else
    let mv := Cpu.interrupt_vector pending_after_hi
    let sp2 := (sp1 + 65535) % 65536
    let bus2 := bus1.write_byte sp2 pc_lo
    let bus3 := bus2.clear_interrupt mv.1
    ({ cpu1 with sp := sp2, pc := mv.2 }, bus3, 20)

def Cpu.advance_ime_delay (cpu : Cpu) : Cpu :=
  if 0 < cpu.ime_delay then
    if cpu.ime_delay - 1 = 0 then { cpu with ime_delay := cpu.ime_delay - 1, ime := true }
    else { cpu with ime_delay := cpu.ime_delay - 1 }
  else cpu

/-- Cpu::execute_cb.  The match ranges 0x00..=0x07, 0x08..=0x0F, ... become an
ordered chain of upper-bound tests on the opcode byte. -/
def Cpu.execute_cb (cpu : Cpu) (opcode : Nat) (bus : Bus) : ExecResult :=
  let register := opcode &&& 0x07
  let value := cpu.read_r8 bus register
  if opcode < 0x08 then
    let p := cpu.rlc value true
    let q := p.1.write_r8 bus register p.2
    ⟨q.1, q.2, .ok (if register = 6 then 16 else 8)⟩
  else if opcode < 0x10 then
    let p := cpu.rrc value true
    let q := p.1.write_r8 bus register p.2
    ⟨q.1, q.2, .ok (if register = 6 then 16 else 8)⟩
  else if opcode < 0x18 then
    let p := cpu.rl value true
    let q := p.1.write_r8 bus register p.2
    ⟨q.1, q.2, .ok (if register = 6 then 16 else 8)⟩
  else if opcode < 0x20 then
    let p := cpu.rr value true
    let q := p.1.write_r8 bus register p.2
    ⟨q.1, q.2, .ok (if register = 6 then 16 else 8)⟩
  else if opcode < 0x28 then
    let p := cpu.sla value
    let q := p.1.write_r8 bus register p.2
    ⟨q.1, q.2, .ok (if register = 6 then 16 else 8)⟩
  else if opcode < 0x30 then
    let p := cpu.sra value
    let q := p.1.write_r8 bus register p.2
    ⟨q.1, q.2, .ok (if register = 6 then 16 else 8)⟩
  else if opcode < 0x38 then
    let p := cpu.swap value
    let q := p.1.write_r8 bus register p.2
    ⟨q.1, q.2, .ok (if register = 6 then 16 else 8)⟩
  else if opcode < 0x40 then
    let p := cpu.srl value
    let q := p.1.write_r8 bus register p.2
    ⟨q.1, q.2, .ok (if register = 6 then 16 else 8)⟩
  else if opcode < 0x80 then
    -- BIT b, r
    let bit := (opcode >>> 3) &&& 0x07
    let r1 := cpu.regs.set_z ((value &&& (1 <<< bit)) == 0)
    let r2 := r1.set_n false
    let r3 := r2.set_h true
    ⟨{ cpu with regs := r3 }, bus, .ok (if register = 6 then 12 else 8)⟩
  else if opcode < 0xC0 then
    -- RES b, r: value & !(1 << bit) on u8
    let bit := (opcode >>> 3) &&& 0x07
    let v2 := value &&& ((1 <<< bit) ^^^ 0xFF)
    let q := cpu.write_r8 bus register v2
    ⟨q.1, q.2, .ok (if register = 6 then 16 else 8)⟩
  else
    -- SET b, r
    let bit := (opcode >>> 3) &&& 0x07
    let v2 := value ||| (1 <<< bit)
    let q := cpu.write_r8 bus register v2
    ⟨q.1, q.2, .ok (if register = 6 then 16 else 8)⟩

/-- Cpu::execute_base.  The Rust match becomes an ordered if chain over the
opcode byte, one branch per match arm, in source order.  The inner
`_ => unreachable!()` arms of nested matches over a fixed opcode set are folded
into the last listed opcode, which is the only remaining possibility. -/
def Cpu.execute_base (cpu : Cpu) (opcode : Nat) (bus : Bus) : ExecResult :=
  if opcode = 0x00 then ⟨cpu, bus, .ok 4⟩
  else if opcode = 0x01 ∨ opcode = 0x11 ∨ opcode = 0x21 ∨ opcode = 0x31 then
    let p := cpu.fetch_word bus
    let cpu2 :=
      if opcode = 0x01 then { p.1 with regs := p.1.regs.set_bc p.2 }
      else if opcode = 0x11 then { p.1 with regs := p.1.regs.set_de p.2 }
      else if opcode = 0x21 then { p.1 with regs := p.1.regs.set_hl p.2 }
      else { p.1 with sp := p.2 }
    ⟨cpu2, bus, .ok 12⟩
  else if opcode = 0x02 then
    ⟨cpu, bus.write_byte cpu.regs.bc cpu.regs.a, .ok 8⟩
  else if opcode = 0x12 then
    ⟨cpu, bus.write_byte cpu.regs.de cpu.regs.a, .ok 8⟩
  else if opcode = 0x22 then
    let hl := cpu.regs.hl
    ⟨{ cpu with regs := cpu.regs.set_hl ((hl + 1) % 65536) },
      bus.write_byte hl cpu.regs.a, .ok 8⟩
  else if opcode = 0x32 then
    let hl := cpu.regs.hl
    ⟨{ cpu with regs := cpu.regs.set_hl ((hl + 65535) % 65536) },
      bus.write_byte hl cpu.regs.a, .ok 8⟩
  else if opcode = 0x03 ∨ opcode = 0x13 ∨ opcode = 0x23 ∨ opcode = 0x33 then
    let cpu2 :=
      if opcode = 0x03 then { cpu with regs := cpu.regs.set_bc ((cpu.regs.bc + 1) % 65536) }
      else if opcode = 0x13 then { cpu with regs := cpu.regs.set_de ((cpu.regs.de + 1) % 65536) }
      else if opcode = 0x23 then { cpu with regs := cpu.regs.set_hl ((cpu.regs.hl + 1) % 65536) }
      else { cpu with sp := (cpu.sp + 1) % 65536 }
    ⟨cpu2, bus, .ok 8⟩
  else if opcode &&& 0xC7 = 0x04 then
    -- INC r
    let register := (opcode >>> 3) &&& 0x07
    let value := cpu.read_r8 bus register
    let p := cpu.inc8 value
    let q := p.1.write_r8 bus register p.2
    ⟨q.1, q.2, .ok (if register = 6 then 12 else 4)⟩
  else if opcode &&& 0xC7 = 0x05 then
    -- DEC r
    let register := (opcode >>> 3) &&& 0x07
    let value := cpu.read_r8 bus register
    let p := cpu.dec8 value
    let q := p.1.write_r8 bus register p.2
    ⟨q.1, q.2, .ok (if register = 6 then 12 else 4)⟩
  else if opcode &&& 0xC7 = 0x06 then
    -- LD r, d8
    let register := (opcode >>> 3) &&& 0x07
    let p := cpu.fetch_byte bus
    let q := p.1.write_r8 bus register p.2
    ⟨q.1, q.2, .ok (if register = 6 then 12 else 8)⟩
  else if opcode = 0x07 then
    let p := cpu.rlc cpu.regs.a false
    ⟨{ p.1 with regs := { p.1.regs with a := p.2 } }, bus, .ok 4⟩
  else if opcode = 0x08 then
    let p := cpu.fetch_word bus
    ⟨p.1, bus.write_word p.2 p.1.sp, .ok 20⟩
  else if opcode = 0x09 ∨ opcode = 0x19 ∨ opcode = 0x29 ∨ opcode = 0x39 then
    let value :=
      if opcode = 0x09 then cpu.regs.bc
      else if opcode = 0x19 then cpu.regs.de
      else if opcode = 0x29 then cpu.regs.hl
      else cpu.sp
    ⟨cpu.add_hl value, bus, .ok 8⟩
  else if opcode = 0x0A then
    ⟨{ cpu with regs := { cpu.regs with a := bus.read_byte cpu.regs.bc } }, bus, .ok 8⟩
  else if opcode = 0x1A then
    ⟨{ cpu with regs := { cpu.regs with a := bus.read_byte cpu.regs.de } }, bus, .ok 8⟩
  else if opcode = 0x2A then
    let hl := cpu.regs.hl
    let r1 := { cpu.regs with a := bus.read_byte hl }
    ⟨{ cpu with regs := r1.set_hl ((hl + 1) % 65536) }, bus, .ok 8⟩
  else if opcode = 0x3A then
    let hl := cpu.regs.hl
    let r1 := { cpu.regs with a := bus.read_byte hl }
    ⟨{ cpu with regs := r1.set_hl ((hl + 65535) % 65536) }, bus, .ok 8⟩
  else if opcode = 0x0B ∨ opcode = 0x1B ∨ opcode = 0x2B ∨ opcode = 0x3B then
    let cpu2 :=
      if opcode = 0x0B then { cpu with regs := cpu.regs.set_bc ((cpu.regs.bc + 65535) % 65536) }
      else if opcode = 0x1B then { cpu with regs := cpu.regs.set_de ((cpu.regs.de + 65535) % 65536) }
      else if opcode = 0x2B then { cpu with regs := cpu.regs.set_hl ((cpu.regs.hl + 65535) % 65536) }
      else { cpu with sp := (cpu.sp + 65535) % 65536 }
    ⟨cpu2, bus, .ok 8⟩
  else if opcode = 0x0F then
    let p := cpu.rrc cpu.regs.a false
    ⟨{ p.1 with regs := { p.1.regs with a := p.2 } }, bus, .ok 4⟩
  else if opcode = 0x10 then
    -- STOP: fetch the padding byte, set stopped
    let p := cpu.fetch_byte bus
    ⟨{ p.1 with stopped := true }, bus, .ok 4⟩
  else if opcode = 0x17 then
    let p := cpu.rl cpu.regs.a false
    ⟨{ p.1 with regs := { p.1.regs with a := p.2 } }, bus, .ok 4⟩
  else if opcode = 0x18 then
    let p := cpu.fetch_byte bus
    ⟨{ p.1 with pc := Cpu.add_signed_u16 p.1.pc p.2 }, bus, .ok 12⟩
  else if opcode = 0x20 ∨ opcode = 0x28 ∨ opcode = 0x30 ∨ opcode = 0x38 then
    let p := cpu.fetch_byte bus
    if p.1.condition ((opcode >>> 3) &&& 0x03) then
      ⟨{ p.1 with pc := Cpu.add_signed_u16 p.1.pc p.2 }, bus, .ok 12⟩
    else
      ⟨p.1, bus, .ok 8⟩
  else if opcode = 0x1F then
    let p := cpu.rr cpu.regs.a false
    ⟨{ p.1 with regs := { p.1.regs with a := p.2 } }, bus, .ok 4⟩
  else if opcode = 0x27 then
    ⟨cpu.daa, bus, .ok 4⟩
  else if opcode = 0x2F then
    -- CPL: A = !A on u8
    let r0 := { cpu.regs with a := cpu.regs.a ^^^ 0xFF }
    ⟨{ cpu with regs := (r0.set_n true).set_h true }, bus, .ok 4⟩
  else if opcode = 0x37 then
    ⟨{ cpu with regs := ((cpu.regs.set_n false).set_h false).set_c true }, bus, .ok 4⟩
  else if opcode = 0x3F then
    let carry := cpu.regs.flag_c
    ⟨{ cpu with regs := ((cpu.regs.set_n false).set_h false).set_c (!carry) }, bus, .ok 4⟩
  else if 0x40 ≤ opcode ∧ opcode ≤ 0x7F then
    if opcode = 0x76 then
      let cpu2 :=
        if cpu.ime then { cpu with halted := true }
        else if bus.pending_interrupts ≠ 0 then { cpu with halt_bug := true }
        else { cpu with halted := true }
      ⟨cpu2, bus, .ok 4⟩
    else
      let destination := (opcode >>> 3) &&& 0x07
      let source := opcode &&& 0x07
      let value := cpu.read_r8 bus source
      let q := cpu.write_r8 bus destination value
      ⟨q.1, q.2, .ok (if source = 6 ∨ destination = 6 then 8 else 4)⟩
  else if 0x80 ≤ opcode ∧ opcode ≤ 0xBF then
    let source := opcode &&& 0x07
    let value := cpu.read_r8 bus source
    let op := (opcode >>> 3) &&& 0x07
    let cpu2 :=
      if op = 0 then cpu.add_a value false
      else if op = 1 then cpu.add_a value true
      else if op = 2 then cpu.sub_a value false
      else if op = 3 then cpu.sub_a value true
      else if op = 4 then cpu.and_a value
      else if op = 5 then cpu.xor_a value
      else if op = 6 then cpu.or_a value
      else cpu.cp_a value
    ⟨cpu2, bus, .ok (if source = 6 then 8 else 4)⟩
  else if opcode = 0xC0 ∨ opcode = 0xC8 ∨ opcode = 0xD0 ∨ opcode = 0xD8 then
    if cpu.condition ((opcode >>> 3) &&& 0x03) then
      let p := cpu.pop_word bus
      ⟨{ p.1 with pc := p.2 }, bus, .ok 20⟩
    else
      ⟨cpu, bus, .ok 8⟩
  else if opcode = 0xC1 ∨ opcode = 0xD1 ∨ opcode = 0xE1 ∨ opcode = 0xF1 then
    let p := cpu.pop_word bus
    let cpu2 :=
      if opcode = 0xC1 then { p.1 with regs := p.1.regs.set_bc p.2 }
      else if opcode = 0xD1 then { p.1 with regs := p.1.regs.set_de p.2 }
      else if opcode = 0xE1 then { p.1 with regs := p.1.regs.set_hl p.2 }
      else { p.1 with regs := p.1.regs.set_af p.2 }
    ⟨cpu2, bus, .ok 12⟩
  else if opcode = 0xC2 ∨ opcode = 0xCA ∨ opcode = 0xD2 ∨ opcode = 0xDA then
    let p := cpu.fetch_word bus
    if p.1.condition ((opcode >>> 3) &&& 0x03) then
      ⟨{ p.1 with pc := p.2 }, bus, .ok 16⟩
    else
      ⟨p.1, bus, .ok 12⟩
  else if opcode = 0xC3 then
    let p := cpu.fetch_word bus
    ⟨{ p.1 with pc := p.2 }, bus, .ok 16⟩
  else if opcode = 0xC4 ∨ opcode = 0xCC ∨ opcode = 0xD4 ∨ opcode = 0xDC then
    let p := cpu.fetch_word bus
    if p.1.condition ((opcode >>> 3) &&& 0x03) then
      let q := p.1.push_word bus p.1.pc
      ⟨{ q.1 with pc := p.2 }, q.2, .ok 24⟩
    else
      ⟨p.1, bus, .ok 12⟩
  else if opcode = 0xC5 ∨ opcode = 0xD5 ∨ opcode = 0xE5 ∨ opcode = 0xF5 then
    let value :=
      if opcode = 0xC5 then cpu.regs.bc
      else if opcode = 0xD5 then cpu.regs.de
      else if opcode = 0xE5 then cpu.regs.hl
      else cpu.regs.af
    let q := cpu.push_word bus value
    ⟨q.1, q.2, .ok 16⟩
  else if opcode = 0xC6 then
    let p := cpu.fetch_byte bus
    ⟨p.1.add_a p.2 false, bus, .ok 8⟩
  else if opcode &&& 0xC7 = 0xC7 then
    -- RST
    let vector := opcode &&& 0x38
    let q := cpu.push_word bus cpu.pc
    ⟨{ q.1 with pc := vector }, q.2, .ok 16⟩
  else if opcode = 0xC9 then
    let p := cpu.pop_word bus
    ⟨{ p.1 with pc := p.2 }, bus, .ok 16⟩
  else if opcode = 0xCB then
    let p := cpu.fetch_byte bus
    p.1.execute_cb p.2 bus
  else if opcode = 0xCD then
    let p := cpu.fetch_word bus
    let q := p.1.push_word bus p.1.pc
    ⟨{ q.1 with pc := p.2 }, q.2, .ok 24⟩
  else if opcode = 0xCE then
    let p := cpu.fetch_byte bus
    ⟨p.1.add_a p.2 true, bus, .ok 8⟩
  else if opcode = 0xD6 then
    let p := cpu.fetch_byte bus
    ⟨p.1.sub_a p.2 false, bus, .ok 8⟩
  else if opcode = 0xD9 then
    -- RETI
    let p := cpu.pop_word bus
    ⟨{ p.1 with pc := p.2, ime := true, ime_delay := 0 }, bus, .ok 16⟩
  else if opcode = 0xDE then
    let p := cpu.fetch_byte bus
    ⟨p.1.sub_a p.2 true, bus, .ok 8⟩
  else if opcode = 0xE0 then
    let p := cpu.fetch_byte bus
    ⟨p.1, bus.write_byte (0xFF00 ||| p.2) p.1.regs.a, .ok 12⟩
  else if opcode = 0xE2 then
    ⟨cpu, bus.write_byte (0xFF00 ||| cpu.regs.c) cpu.regs.a, .ok 8⟩
  else if opcode = 0xE6 then
    let p := cpu.fetch_byte bus
    ⟨p.1.and_a p.2, bus, .ok 8⟩
  else if opcode = 0xE8 then
    let p := cpu.fetch_byte bus
    let t := Cpu.add_sp_offset p.1.sp p.2
    let r1 := p.1.regs.set_z false
    let r2 := r1.set_n false
    let r3 := r2.set_h t.2.1
    let r4 := r3.set_c t.2.2
    ⟨{ p.1 with sp := t.1, regs := r4 }, bus, .ok 16⟩
  else if opcode = 0xE9 then
    ⟨{ cpu with pc := cpu.regs.hl }, bus, .ok 4⟩
  else if opcode = 0xEA then
    let p := cpu.fetch_word bus
    ⟨p.1, bus.write_byte p.2 p.1.regs.a, .ok 16⟩
  else if opcode = 0xEE then
    let p := cpu.fetch_byte bus
    ⟨p.1.xor_a p.2, bus, .ok 8⟩
  else if opcode = 0xF0 then
    let p := cpu.fetch_byte bus
    ⟨{ p.1 with regs := { p.1.regs with a := bus.read_byte (0xFF00 ||| p.2) } }, bus, .ok 12⟩
  else if opcode = 0xF2 then
    ⟨{ cpu with regs := { cpu.regs with a := bus.read_byte (0xFF00 ||| cpu.regs.c) } },
      bus, .ok 8⟩
  else if opcode = 0xF3 then
    -- DI
    ⟨{ cpu with ime := false, ime_delay := 0 }, bus, .ok 4⟩
  else if opcode = 0xF6 then
    let p := cpu.fetch_byte bus
    ⟨p.1.or_a p.2, bus, .ok 8⟩
  else if opcode = 0xF8 then
    let p := cpu.fetch_byte bus
    let t := Cpu.add_sp_offset p.1.sp p.2
    let r1 := p.1.regs.set_hl t.1
    let r2 := r1.set_z false
    let r3 := r2.set_n false
    let r4 := r3.set_h t.2.1
    let r5 := r4.set_c t.2.2
    ⟨{ p.1 with regs := r5 }, bus, .ok 12⟩
  else if opcode = 0xF9 then
    ⟨{ cpu with sp := cpu.regs.hl }, bus, .ok 8⟩
  else if opcode = 0xFA then
    let p := cpu.fetch_word bus
    ⟨{ p.1 with regs := { p.1.regs with a := bus.read_byte p.2 } }, bus, .ok 16⟩
  else if opcode = 0xFB then
    -- EI
    ⟨{ cpu with ime_delay := 2 }, bus, .ok 4⟩
  else if opcode = 0xFE then
    let p := cpu.fetch_byte bus
    ⟨p.1.cp_a p.2, bus, .ok 8⟩
  else
    -- 0xDB | 0xDD | 0xE3 | 0xE4 | 0xEB | 0xEC | 0xED | 0xF4 | 0xFC | 0xFD and
    -- the final catch-all (0xD3) both return IllegalOpcode with no mutation
    ⟨cpu, bus, .error (.IllegalOpcode opcode)⟩

/-- The fetch / decode / execute / tick / advance-EI-delay tail of Cpu::step. -/
def Cpu.step_exec (cpu : Cpu) (bus : Bus) : ExecResult :=
  match (cpu.fetch_byte bus).1.execute_base ((cpu.fetch_byte bus).2) bus with
  | ⟨cpu2, bus2, .error e⟩ => ⟨cpu2, bus2, .error e⟩
  | ⟨cpu2, bus2, .ok cycles⟩ => ⟨cpu2.advance_ime_delay, bus2.tick cycles, .ok cycles⟩

/-- The part of Cpu::step after the STOP wake-up check: interrupt dispatch
check, HALT check, then fetch-execute. -/
def Cpu.step_main (cpu : Cpu) (bus : Bus) : ExecResult :=
  let pending := bus.pending_interrupts
  if cpu.ime ∧ pending ≠ 0 then
    let s := cpu.service_interrupt bus
    ⟨s.1, s.2.1.tick s.2.2, .ok s.2.2⟩
  else if cpu.halted then
    if pending ≠ 0 then Cpu.step_exec { cpu with halted := false } bus
    else ⟨cpu, bus.tick 4, .ok 4⟩
  else Cpu.step_exec cpu bus

def Cpu.step (cpu : Cpu) (bus : Bus) : ExecResult :=
  if cpu.stopped then
    if bus.pending_interrupts ≠ 0 then Cpu.step_main { cpu with stopped := false } bus
    else ⟨cpu, bus.tick 4, .ok 4⟩
  else Cpu.step_main cpu bus

structure GameBoy where
  cpu : Cpu
  bus : Bus

def GameBoy.init : GameBoy := ⟨Cpu.init, Bus.init⟩

def GameBoy.with_program (start : Nat) (program : List Nat) : GameBoy :=
  { cpu := { Cpu.init with pc := start }, bus := Bus.init.load_bytes start program }

def GameBoy.load_rom (gb : GameBoy) (rom_data : List Nat) : GameBoy :=
  { cpu := { gb.cpu with pc := 0x0100, sp := 0xFFFE }
    bus := gb.bus.load_bytes 0x0000 rom_data }

structure StepResult where
  gb : GameBoy
  result : Except EmuError Nat

def GameBoy.step (gb : GameBoy) : StepResult :=
  let r := gb.cpu.step gb.bus
  ⟨⟨r.cpu, r.bus⟩, r.result⟩

/-- Run n steps, keeping the post-state of each step (the test helper
run_steps; all scenarios in the claims only step through succeeding
instructions). -/
def GameBoy.stepN (gb : GameBoy) : Nat → GameBoy
  | 0 => gb
  | n + 1 => (gb.step.gb).stepN n

/-
Helper lemmas.  Flag writes always leave the low nibble of F clear, and the
CPU helpers touch only the state components they are written to touch.
-/

@[simp] theorem and_F0_and_0F (x : Nat) : x &&& 0xF0 &&& 0x0F = 0 := by
  rw [Nat.and_assoc, (by decide : (0xF0 &&& 0x0F : Nat) = 0)]; simp

@[simp] theorem Registers.set_flag_f_mask (r : Registers) (m : Nat) (v : Bool) :
    (r.set_flag m v).f &&& 0x0F = 0 := by
  simp [Registers.set_flag]

@[simp] theorem Registers.set_z_f_mask (r : Registers) (v : Bool) :
    (r.set_z v).f &&& 0x0F = 0 := by simp [Registers.set_z]

@[simp] theorem Registers.set_n_f_mask (r : Registers) (v : Bool) :
    (r.set_n v).f &&& 0x0F = 0 := by simp [Registers.set_n]

@[simp] theorem Registers.set_h_f_mask (r : Registers) (v : Bool) :
    (r.set_h v).f &&& 0x0F = 0 := by simp [Registers.set_h]

@[simp] theorem Registers.set_c_f_mask (r : Registers) (v : Bool) :
    (r.set_c v).f &&& 0x0F = 0 := by simp [Registers.set_c]

@[simp] theorem Registers.set_af_f_mask (r : Registers) (v : Nat) :
    (r.set_af v).f &&& 0x0F = 0 := by simp [Registers.set_af]

@[simp] theorem Registers.set_bc_f (r : Registers) (v : Nat) :
    (r.set_bc v).f = r.f := rfl

@[simp] theorem Registers.set_de_f (r : Registers) (v : Nat) :
    (r.set_de v).f = r.f := rfl

@[simp] theorem Registers.set_hl_f (r : Registers) (v : Nat) :
    (r.set_hl v).f = r.f := rfl

@[simp] theorem Cpu.fetch_byte_regs (cpu : Cpu) (bus : Bus) :
    (cpu.fetch_byte bus).1.regs = cpu.regs := by
  unfold Cpu.fetch_byte; split <;> rfl

@[simp] theorem Cpu.fetch_byte_sp (cpu : Cpu) (bus : Bus) :
    (cpu.fetch_byte bus).1.sp = cpu.sp := by
  unfold Cpu.fetch_byte; split <;> rfl

@[simp] theorem Cpu.fetch_byte_ime (cpu : Cpu) (bus : Bus) :
    (cpu.fetch_byte bus).1.ime = cpu.ime := by
  unfold Cpu.fetch_byte; split <;> rfl

@[simp] theorem Cpu.fetch_byte_ime_delay (cpu : Cpu) (bus : Bus) :
    (cpu.fetch_byte bus).1.ime_delay = cpu.ime_delay := by
  unfold Cpu.fetch_byte; split <;> rfl

@[simp] theorem Cpu.fetch_byte_halted (cpu : Cpu) (bus : Bus) :
    (cpu.fetch_byte bus).1.halted = cpu.halted := by
  unfold Cpu.fetch_byte; split <;> rfl

@[simp] theorem Cpu.fetch_byte_stopped (cpu : Cpu) (bus : Bus) :
    (cpu.fetch_byte bus).1.stopped = cpu.stopped := by
  unfold Cpu.fetch_byte; split <;> rfl

@[simp] theorem Cpu.fetch_byte_value (cpu : Cpu) (bus : Bus) :
    (cpu.fetch_byte bus).2 = bus.read_byte cpu.pc := by
  unfold Cpu.fetch_byte; split <;> rfl

@[simp] theorem Cpu.fetch_word_regs (cpu : Cpu) (bus : Bus) :
    (cpu.fetch_word bus).1.regs = cpu.regs := by simp [Cpu.fetch_word]

@[simp] theorem Cpu.fetch_word_sp (cpu : Cpu) (bus : Bus) :
    (cpu.fetch_word bus).1.sp = cpu.sp := by simp [Cpu.fetch_word]

@[simp] theorem Cpu.fetch_word_ime (cpu : Cpu) (bus : Bus) :
    (cpu.fetch_word bus).1.ime = cpu.ime := by simp [Cpu.fetch_word]

@[simp] theorem Cpu.fetch_word_ime_delay (cpu : Cpu) (bus : Bus) :
    (cpu.fetch_word bus).1.ime_delay = cpu.ime_delay := by simp [Cpu.fetch_word]

@[simp] theorem Cpu.push_word_regs (cpu : Cpu) (bus : Bus) (v : Nat) :
    (cpu.push_word bus v).1.regs = cpu.regs := by
  show ({ cpu with sp := ((cpu.sp + 65535) % 65536 + 65535) % 65536 } : Cpu).regs = cpu.regs
  rfl

@[simp] theorem Cpu.push_word_ime (cpu : Cpu) (bus : Bus) (v : Nat) :
    (cpu.push_word bus v).1.ime = cpu.ime := by
  show ({ cpu with sp := ((cpu.sp + 65535) % 65536 + 65535) % 65536 } : Cpu).ime = cpu.ime
  rfl

@[simp] theorem Cpu.push_word_ime_delay (cpu : Cpu) (bus : Bus) (v : Nat) :
    (cpu.push_word bus v).1.ime_delay = cpu.ime_delay := by
  show ({ cpu with sp := ((cpu.sp + 65535) % 65536 + 65535) % 65536 } : Cpu).ime_delay = cpu.ime_delay
  rfl

@[simp] theorem Cpu.push_word_pc (cpu : Cpu) (bus : Bus) (v : Nat) :
    (cpu.push_word bus v).1.pc = cpu.pc := by
  show ({ cpu with sp := ((cpu.sp + 65535) % 65536 + 65535) % 65536 } : Cpu).pc = cpu.pc
  rfl

@[simp] theorem Cpu.pop_word_regs (cpu : Cpu) (bus : Bus) :
    (cpu.pop_word bus).1.regs = cpu.regs := rfl

@[simp] theorem Cpu.pop_word_ime (cpu : Cpu) (bus : Bus) :
    (cpu.pop_word bus).1.ime = cpu.ime := rfl

@[simp] theorem Cpu.pop_word_ime_delay (cpu : Cpu) (bus : Bus) :
    (cpu.pop_word bus).1.ime_delay = cpu.ime_delay := rfl

@[simp] theorem Cpu.write_r8_f (cpu : Cpu) (bus : Bus) (i v : Nat) :
    (cpu.write_r8 bus i v).1.regs.f = cpu.regs.f := by
  unfold Cpu.write_r8; split <;> rfl

@[simp] theorem Cpu.write_r8_ime (cpu : Cpu) (bus : Bus) (i v : Nat) :
    (cpu.write_r8 bus i v).1.ime = cpu.ime := by
  unfold Cpu.write_r8; split <;> rfl

@[simp] theorem Cpu.write_r8_ime_delay (cpu : Cpu) (bus : Bus) (i v : Nat) :
    (cpu.write_r8 bus i v).1.ime_delay = cpu.ime_delay := by
  unfold Cpu.write_r8; split <;> rfl

@[simp] theorem Cpu.inc8_f_mask (cpu : Cpu) (v : Nat) :
    (cpu.inc8 v).1.regs.f &&& 0x0F = 0 := by simp [Cpu.inc8]

@[simp] theorem Cpu.inc8_ime (cpu : Cpu) (v : Nat) :
    (cpu.inc8 v).1.ime = cpu.ime := rfl

@[simp] theorem Cpu.inc8_ime_delay (cpu : Cpu) (v : Nat) :
    (cpu.inc8 v).1.ime_delay = cpu.ime_delay := rfl

@[simp] theorem Cpu.dec8_f_mask (cpu : Cpu) (v : Nat) :
    (cpu.dec8 v).1.regs.f &&& 0x0F = 0 := by simp [Cpu.dec8]

@[simp] theorem Cpu.dec8_ime (cpu : Cpu) (v : Nat) :
    (cpu.dec8 v).1.ime = cpu.ime := rfl

@[simp] theorem Cpu.dec8_ime_delay (cpu : Cpu) (v : Nat) :
    (cpu.dec8 v).1.ime_delay = cpu.ime_delay := rfl

@[simp] theorem Cpu.add_a_f_mask (cpu : Cpu) (v : Nat) (wc : Bool) :
    (cpu.add_a v wc).regs.f &&& 0x0F = 0 := by simp [Cpu.add_a]

@[simp] theorem Cpu.add_a_ime (cpu : Cpu) (v : Nat) (wc : Bool) :
    (cpu.add_a v wc).ime = cpu.ime := rfl

@[simp] theorem Cpu.add_a_ime_delay (cpu : Cpu) (v : Nat) (wc : Bool) :
    (cpu.add_a v wc).ime_delay = cpu.ime_delay := rfl

@[simp] theorem Cpu.sub_a_f_mask (cpu : Cpu) (v : Nat) (wc : Bool) :
    (cpu.sub_a v wc).regs.f &&& 0x0F = 0 := by simp [Cpu.sub_a]

@[simp] theorem Cpu.sub_a_ime (cpu : Cpu) (v : Nat) (wc : Bool) :
    (cpu.sub_a v wc).ime = cpu.ime := rfl

@[simp] theorem Cpu.sub_a_ime_delay (cpu : Cpu) (v : Nat) (wc : Bool) :
    (cpu.sub_a v wc).ime_delay = cpu.ime_delay := rfl

@[simp] theorem Cpu.and_a_f_mask (cpu : Cpu) (v : Nat) :
    (cpu.and_a v).regs.f &&& 0x0F = 0 := by simp [Cpu.and_a]

@[simp] theorem Cpu.and_a_ime (cpu : Cpu) (v : Nat) :
    (cpu.and_a v).ime = cpu.ime := rfl

@[simp] theorem Cpu.and_a_ime_delay (cpu : Cpu) (v : Nat) :
    (cpu.and_a v).ime_delay = cpu.ime_delay := rfl

@[simp] theorem Cpu.xor_a_f_mask (cpu : Cpu) (v : Nat) :
    (cpu.xor_a v).regs.f &&& 0x0F = 0 := by simp [Cpu.xor_a]

@[simp] theorem Cpu.xor_a_ime (cpu : Cpu) (v : Nat) :
    (cpu.xor_a v).ime = cpu.ime := rfl

@[simp] theorem Cpu.xor_a_ime_delay (cpu : Cpu) (v : Nat) :
    (cpu.xor_a v).ime_delay = cpu.ime_delay := rfl

@[simp] theorem Cpu.or_a_f_mask (cpu : Cpu) (v : Nat) :
    (cpu.or_a v).regs.f &&& 0x0F = 0 := by simp [Cpu.or_a]

@[simp] theorem Cpu.or_a_ime (cpu : Cpu) (v : Nat) :
    (cpu.or_a v).ime = cpu.ime := rfl

@[simp] theorem Cpu.or_a_ime_delay (cpu : Cpu) (v : Nat) :
    (cpu.or_a v).ime_delay = cpu.ime_delay := rfl

@[simp] theorem Cpu.cp_a_f_mask (cpu : Cpu) (v : Nat) :
    (cpu.cp_a v).regs.f &&& 0x0F = 0 := by simp [Cpu.cp_a]

@[simp] theorem Cpu.cp_a_ime (cpu : Cpu) (v : Nat) :
    (cpu.cp_a v).ime = cpu.ime := rfl

@[simp] theorem Cpu.cp_a_ime_delay (cpu : Cpu) (v : Nat) :
    (cpu.cp_a v).ime_delay = cpu.ime_delay := rfl

@[simp] theorem Cpu.add_hl_f_mask (cpu : Cpu) (v : Nat) :
    (cpu.add_hl v).regs.f &&& 0x0F = 0 := by simp [Cpu.add_hl]

@[simp] theorem Cpu.add_hl_ime (cpu : Cpu) (v : Nat) :
    (cpu.add_hl v).ime = cpu.ime := rfl

@[simp] theorem Cpu.add_hl_ime_delay (cpu : Cpu) (v : Nat) :
    (cpu.add_hl v).ime_delay = cpu.ime_delay := rfl

@[simp] theorem Cpu.daa_f_mask (cpu : Cpu) :
    cpu.daa.regs.f &&& 0x0F = 0 := by
  unfold Cpu.daa; split <;> simp

@[simp] theorem Cpu.daa_ime (cpu : Cpu) : cpu.daa.ime = cpu.ime := by
  unfold Cpu.daa; split <;> rfl

@[simp] theorem Cpu.daa_ime_delay (cpu : Cpu) : cpu.daa.ime_delay = cpu.ime_delay := by
  unfold Cpu.daa; split <;> rfl

@[simp] theorem Cpu.set_rotate_flags_f_mask (cpu : Cpu) (r : Nat) (c z : Bool) :
    (cpu.set_rotate_flags r c z).regs.f &&& 0x0F = 0 := by
  simp [Cpu.set_rotate_flags]

@[simp] theorem Cpu.set_rotate_flags_ime (cpu : Cpu) (r : Nat) (c z : Bool) :
    (cpu.set_rotate_flags r c z).ime = cpu.ime := rfl

@[simp] theorem Cpu.set_rotate_flags_ime_delay (cpu : Cpu) (r : Nat) (c z : Bool) :
    (cpu.set_rotate_flags r c z).ime_delay = cpu.ime_delay := rfl

@[simp] theorem Cpu.rlc_fst (cpu : Cpu) (v : Nat) (sz : Bool) :
    (cpu.rlc v sz).1 =
      cpu.set_rotate_flags (((v <<< 1) &&& 0xFF) ||| (if v &&& 0x80 != 0 then 1 else 0))
        (v &&& 0x80 != 0) sz := rfl

@[simp] theorem Cpu.rrc_fst (cpu : Cpu) (v : Nat) (sz : Bool) :
    (cpu.rrc v sz).1 =
      cpu.set_rotate_flags ((v >>> 1) ||| (if v &&& 0x01 != 0 then 0x80 else 0))
        (v &&& 0x01 != 0) sz := rfl

@[simp] theorem Cpu.rl_fst (cpu : Cpu) (v : Nat) (sz : Bool) :
    (cpu.rl v sz).1 =
      cpu.set_rotate_flags (((v <<< 1) &&& 0xFF) ||| (if cpu.regs.flag_c then 1 else 0))
        (v &&& 0x80 != 0) sz := rfl

@[simp] theorem Cpu.rr_fst (cpu : Cpu) (v : Nat) (sz : Bool) :
    (cpu.rr v sz).1 =
      cpu.set_rotate_flags ((v >>> 1) ||| (if cpu.regs.flag_c then 0x80 else 0))
        (v &&& 0x01 != 0) sz := rfl

@[simp] theorem Cpu.sla_fst (cpu : Cpu) (v : Nat) :
    (cpu.sla v).1 = cpu.set_rotate_flags ((v <<< 1) &&& 0xFF) (v &&& 0x80 != 0) true := rfl

@[simp] theorem Cpu.sra_fst (cpu : Cpu) (v : Nat) :
    (cpu.sra v).1 =
      cpu.set_rotate_flags ((v >>> 1) ||| (v &&& 0x80)) (v &&& 0x01 != 0) true := rfl

@[simp] theorem Cpu.srl_fst (cpu : Cpu) (v : Nat) :
    (cpu.srl v).1 = cpu.set_rotate_flags (v >>> 1) (v &&& 0x01 != 0) true := rfl

@[simp] theorem Cpu.swap_f_mask (cpu : Cpu) (v : Nat) :
    (cpu.swap v).1.regs.f &&& 0x0F = 0 := by simp [Cpu.swap]

@[simp] theorem Cpu.swap_ime (cpu : Cpu) (v : Nat) :
    (cpu.swap v).1.ime = cpu.ime := rfl

@[simp] theorem Cpu.swap_ime_delay (cpu : Cpu) (v : Nat) :
    (cpu.swap v).1.ime_delay = cpu.ime_delay := rfl

/-
Distribution lemmas: push projections and predicates through the if chains of
the opcode dispatch.
-/

@[simp] theorem ite_exec_cpu (c : Prop) [Decidable c] (a b : ExecResult) :
    (if c then a else b).cpu = if c then a.cpu else b.cpu := apply_ite _ c a b

@[simp] theorem ite_exec_bus (c : Prop) [Decidable c] (a b : ExecResult) :
    (if c then a else b).bus = if c then a.bus else b.bus := apply_ite _ c a b

@[simp] theorem ite_exec_result (c : Prop) [Decidable c] (a b : ExecResult) :
    (if c then a else b).result = if c then a.result else b.result := apply_ite _ c a b

@[simp] theorem ite_cpu_ime (c : Prop) [Decidable c] (a b : Cpu) :
    (if c then a else b).ime = if c then a.ime else b.ime := apply_ite _ c a b

@[simp] theorem ite_cpu_ime_delay (c : Prop) [Decidable c] (a b : Cpu) :
    (if c then a else b).ime_delay = if c then a.ime_delay else b.ime_delay :=
  apply_ite _ c a b

@[simp] theorem ite_cpu_regs (c : Prop) [Decidable c] (a b : Cpu) :
    (if c then a else b).regs = if c then a.regs else b.regs := apply_ite _ c a b

@[simp] theorem ite_cpu_pc (c : Prop) [Decidable c] (a b : Cpu) :
    (if c then a else b).pc = if c then a.pc else b.pc := apply_ite _ c a b

@[simp] theorem ite_cpu_sp (c : Prop) [Decidable c] (a b : Cpu) :
    (if c then a else b).sp = if c then a.sp else b.sp := apply_ite _ c a b

@[simp] theorem ite_cpu_halted (c : Prop) [Decidable c] (a b : Cpu) :
    (if c then a else b).halted = if c then a.halted else b.halted := apply_ite _ c a b

@[simp] theorem ite_cpu_stopped (c : Prop) [Decidable c] (a b : Cpu) :
    (if c then a else b).stopped = if c then a.stopped else b.stopped := apply_ite _ c a b

@[simp] theorem ite_regs_f (c : Prop) [Decidable c] (a b : Registers) :
    (if c then a else b).f = if c then a.f else b.f := apply_ite _ c a b

@[simp] theorem ite_and_right (c : Prop) [Decidable c] (a b k : Nat) :
    (if c then a else b) &&& k = if c then a &&& k else b &&& k :=
  apply_ite (fun x => x &&& k) c a b

@[simp] theorem ite_fst {α β : Type} (c : Prop) [Decidable c] (a b : α × β) :
    (if c then a else b).1 = if c then a.1 else b.1 := apply_ite _ c a b

@[simp] theorem ite_snd {α β : Type} (c : Prop) [Decidable c] (a b : α × β) :
    (if c then a else b).2 = if c then a.2 else b.2 := apply_ite _ c a b

@[simp] theorem ite_exc_eq_error (c : Prop) [Decidable c] (a b : Except EmuError Nat)
    (e : EmuError) :
    ((if c then a else b) = Except.error e) =
      if c then a = Except.error e else b = Except.error e :=
  apply_ite (fun x => x = Except.error e) c a b

@[simp] theorem ite_exc_eq_ok (c : Prop) [Decidable c] (a b : Except EmuError Nat)
    (n : Nat) :
    ((if c then a else b) = Except.ok n) =
      if c then a = Except.ok n else b = Except.ok n :=
  apply_ite (fun x => x = Except.ok n) c a b

/-
Master lemmas over the opcode dispatch: the properties of execute_cb and
execute_base that hold for every opcode and every state.
-/

/-- The cycle counts a step may report: 4, 8, 12, 16, 20 or 24. -/
def cycleOk (n : Nat) : Bool :=
  (n == 4) || (n == 8) || (n == 12) || (n == 16) || (n == 20) || (n == 24)

@[simp] theorem cycleOk_4 : cycleOk 4 = true := rfl

@[simp] theorem cycleOk_8 : cycleOk 8 = true := rfl

@[simp] theorem cycleOk_12 : cycleOk 12 = true := rfl

@[simp] theorem cycleOk_16 : cycleOk 16 = true := rfl

@[simp] theorem cycleOk_20 : cycleOk 20 = true := rfl

@[simp] theorem cycleOk_24 : cycleOk 24 = true := rfl

@[simp] theorem ite_cycleOk (c : Prop) [Decidable c] (a b : Nat) :
    cycleOk (if c then a else b) = if c then cycleOk a else cycleOk b :=
  apply_ite _ c a b

/-- The cycle count of an Ok result is one of the six legal values (an error
result is unconstrained). -/
def resultCyclesOk (r : ExecResult) : Bool :=
  match r.result with
  | .ok c => cycleOk c
  | .error _ => true

@[simp] theorem resultCyclesOk_mk_ok (a : Cpu) (b : Bus) (n : Nat) :
    resultCyclesOk ⟨a, b, .ok n⟩ = cycleOk n := rfl

@[simp] theorem resultCyclesOk_mk_error (a : Cpu) (b : Bus) (e : EmuError) :
    resultCyclesOk ⟨a, b, .error e⟩ = true := rfl

@[simp] theorem ite_resultCyclesOk (c : Prop) [Decidable c] (a b : ExecResult) :
    resultCyclesOk (if c then a else b) =
      if c then resultCyclesOk a else resultCyclesOk b :=
  apply_ite _ c a b

/-- An execute that fails leaves both the CPU and the bus exactly as they
were. -/
def noErrMutation (cpu : Cpu) (bus : Bus) (r : ExecResult) : Prop :=
  ∀ e, r.result = Except.error e → r.cpu = cpu ∧ r.bus = bus

/-- Every execute either leaves ime and ime_delay unchanged, sets them the way
RETI does (ime, no delay), sets them the way DI or interrupt entry does
(no ime, no delay), or is the EI opcode and sets ime_delay = 2 with ime
untouched. -/
def imeSpec (cpu : Cpu) (op : Nat) (r : ExecResult) : Prop :=
  (r.cpu.ime = cpu.ime ∧ r.cpu.ime_delay = cpu.ime_delay) ∨
    (r.cpu.ime = true ∧ r.cpu.ime_delay = 0) ∨
    (r.cpu.ime = false ∧ r.cpu.ime_delay = 0) ∨
    (op = 0xFB ∧ r.cpu.ime = cpu.ime ∧ r.cpu.ime_delay = 2)

theorem Cpu.execute_cb_ime (cpu : Cpu) (op : Nat) (bus : Bus) :
    (cpu.execute_cb op bus).cpu.ime = cpu.ime := by
  unfold Cpu.execute_cb
  simp

theorem Cpu.execute_cb_ime_delay (cpu : Cpu) (op : Nat) (bus : Bus) :
    (cpu.execute_cb op bus).cpu.ime_delay = cpu.ime_delay := by
  unfold Cpu.execute_cb
  simp

theorem Cpu.execute_cb_f_mask (cpu : Cpu) (op : Nat) (bus : Bus)
    (h : cpu.regs.f &&& 0x0F = 0) :
    (cpu.execute_cb op bus).cpu.regs.f &&& 0x0F = 0 := by
  unfold Cpu.execute_cb
  simp [h]

@[simp] theorem Cpu.execute_cb_noErr (cpu : Cpu) (op : Nat) (bus : Bus) (e : EmuError) :
    (cpu.execute_cb op bus).result ≠ Except.error e := by
  unfold Cpu.execute_cb
  simp

@[simp] theorem Cpu.execute_cb_resultCyclesOk (cpu : Cpu) (op : Nat) (bus : Bus) :
    resultCyclesOk (cpu.execute_cb op bus) = true := by
  unfold Cpu.execute_cb
  simp only [ite_resultCyclesOk]
  simp

theorem Cpu.execute_base_f_mask (cpu : Cpu) (op : Nat) (bus : Bus)
    (h : cpu.regs.f &&& 0x0F = 0) :
    (cpu.execute_base op bus).cpu.regs.f &&& 0x0F = 0 := by
  unfold Cpu.execute_base
  simp [h, Cpu.execute_cb_f_mask]

@[simp] theorem ite_imeSpec (cpu : Cpu) (op : Nat) (c : Prop) [Decidable c]
    (a b : ExecResult) :
    imeSpec cpu op (if c then a else b) =
      if c then imeSpec cpu op a else imeSpec cpu op b :=
  apply_ite _ c a b

@[simp] theorem imeSpec_mk (cpu : Cpu) (op : Nat) (a : Cpu) (b : Bus)
    (res : Except EmuError Nat) :
    imeSpec cpu op ⟨a, b, res⟩ =
      ((a.ime = cpu.ime ∧ a.ime_delay = cpu.ime_delay) ∨
        (a.ime = true ∧ a.ime_delay = 0) ∨
        (a.ime = false ∧ a.ime_delay = 0) ∨
        (op = 0xFB ∧ a.ime = cpu.ime ∧ a.ime_delay = 2)) := rfl

@[simp] theorem imeSpec_execute_cb (cpu c2 : Cpu) (op op2 : Nat) (b2 : Bus)
    (h1 : c2.ime = cpu.ime) (h2 : c2.ime_delay = cpu.ime_delay) :
    imeSpec cpu op (c2.execute_cb op2 b2) = True := by
  simp [imeSpec, Cpu.execute_cb_ime, Cpu.execute_cb_ime_delay, h1, h2]

@[simp] theorem ite_noErrMutation (cpu : Cpu) (bus : Bus) (c : Prop) [Decidable c]
    (a b : ExecResult) :
    noErrMutation cpu bus (if c then a else b) =
      if c then noErrMutation cpu bus a else noErrMutation cpu bus b :=
  apply_ite _ c a b

@[simp] theorem noErrMutation_mk_ok (cpu : Cpu) (bus : Bus) (a : Cpu) (b : Bus)
    (n : Nat) :
    noErrMutation cpu bus ⟨a, b, Except.ok n⟩ = True := by
  simp [noErrMutation]

@[simp] theorem noErrMutation_mk_err (cpu : Cpu) (bus : Bus) (a : Cpu) (b : Bus)
    (e : EmuError) :
    noErrMutation cpu bus ⟨a, b, Except.error e⟩ = (a = cpu ∧ b = bus) := by
  simp [noErrMutation]

@[simp] theorem noErrMutation_execute_cb (cpu c2 : Cpu) (bus b2 : Bus) (op2 : Nat) :
    noErrMutation cpu bus (c2.execute_cb op2 b2) = True :=
  eq_true (fun e he => absurd he (Cpu.execute_cb_noErr c2 op2 b2 e))

theorem Cpu.execute_base_imeSpec (cpu : Cpu) (op : Nat) (bus : Bus) :
    imeSpec cpu op (cpu.execute_base op bus) := by
  by_cases hop : op = 0xFB
  · subst hop
    simp +decide [Cpu.execute_base, imeSpec]
  · unfold Cpu.execute_base
    simp [hop]

theorem Cpu.execute_base_noErrMutation (cpu : Cpu) (op : Nat) (bus : Bus) :
    noErrMutation cpu bus (cpu.execute_base op bus) := by
  unfold Cpu.execute_base
  simp

theorem Cpu.execute_base_resultCyclesOk (cpu : Cpu) (op : Nat) (bus : Bus) :
    resultCyclesOk (cpu.execute_base op bus) = true := by
  unfold Cpu.execute_base
  simp

/-
Step-level helper lemmas.
-/

@[simp] theorem Cpu.service_interrupt_regs (cpu : Cpu) (bus : Bus) :
    (cpu.service_interrupt bus).1.regs = cpu.regs := by
  unfold Cpu.service_interrupt; simp

@[simp] theorem Cpu.service_interrupt_ime (cpu : Cpu) (bus : Bus) :
    (cpu.service_interrupt bus).1.ime = false := by
  unfold Cpu.service_interrupt; simp

@[simp] theorem Cpu.service_interrupt_ime_delay (cpu : Cpu) (bus : Bus) :
    (cpu.service_interrupt bus).1.ime_delay = 0 := by
  unfold Cpu.service_interrupt; simp

@[simp] theorem Cpu.service_interrupt_cycles (cpu : Cpu) (bus : Bus) :
    (cpu.service_interrupt bus).2.2 = 20 := by
  unfold Cpu.service_interrupt; simp

@[simp] theorem Cpu.advance_ime_delay_regs (cpu : Cpu) :
    cpu.advance_ime_delay.regs = cpu.regs := by
  unfold Cpu.advance_ime_delay; simp

theorem Cpu.advance_ime_delay_inv (cpu : Cpu)
    (h : 0 < cpu.ime_delay → cpu.ime = false) :
    0 < cpu.advance_ime_delay.ime_delay → cpu.advance_ime_delay.ime = false := by
  unfold Cpu.advance_ime_delay
  split_ifs with h1 h2 <;> intro hgt
  · simp at hgt
    omega
  · exact h h1
  · exact h hgt

theorem Cpu.step_exec_f_mask (cpu : Cpu) (bus : Bus)
    (h : cpu.regs.f &&& 0x0F = 0) :
    (cpu.step_exec bus).cpu.regs.f &&& 0x0F = 0 := by
  have hb := Cpu.execute_base_f_mask (cpu.fetch_byte bus).1 ((cpu.fetch_byte bus).2) bus
    (by simpa using h)
  unfold Cpu.step_exec
  rcases hE : (cpu.fetch_byte bus).1.execute_base ((cpu.fetch_byte bus).2) bus
    with ⟨c2, b2, res⟩
  rw [hE] at hb
  rcases res with c | e <;> simpa using hb

theorem Cpu.step_exec_inv (cpu : Cpu) (bus : Bus)
    (h : 0 < cpu.ime_delay → cpu.ime = false)
    (hEI : bus.read_byte cpu.pc = 0xFB → cpu.ime = false) :
    0 < (cpu.step_exec bus).cpu.ime_delay → (cpu.step_exec bus).cpu.ime = false := by
  have hspec := Cpu.execute_base_imeSpec (cpu.fetch_byte bus).1 ((cpu.fetch_byte bus).2) bus
  unfold Cpu.step_exec
  rcases hE : (cpu.fetch_byte bus).1.execute_base ((cpu.fetch_byte bus).2) bus
    with ⟨c2, b2, res⟩
  rw [hE] at hspec
  have hrinv : 0 < c2.ime_delay → c2.ime = false := by
    rcases hspec with ⟨h1, h2⟩ | ⟨h1, h2⟩ | ⟨h1, h2⟩ | ⟨hop, h1, h2⟩
    · simp only [imeSpec_mk] at h1 h2
      rw [h1, h2]
      simp only [Cpu.fetch_byte_ime, Cpu.fetch_byte_ime_delay]
      exact h
    · intro hgt
      rw [h2] at hgt
      omega
    · intro _
      exact h1
    · rw [h1, h2]
      intro _
      rw [Cpu.fetch_byte_ime]
      apply hEI
      simpa using hop
  rcases res with e | c
  · simpa using hrinv
  · simpa using Cpu.advance_ime_delay_inv c2 hrinv

theorem Cpu.step_exec_err (cpu : Cpu) (bus : Bus) (e : EmuError)
    (he : (cpu.step_exec bus).result = Except.error e) :
    (cpu.step_exec bus).cpu = (cpu.fetch_byte bus).1 ∧ (cpu.step_exec bus).bus = bus := by
  have hnm := Cpu.execute_base_noErrMutation (cpu.fetch_byte bus).1 ((cpu.fetch_byte bus).2) bus
  unfold Cpu.step_exec at he ⊢
  rcases hE : (cpu.fetch_byte bus).1.execute_base ((cpu.fetch_byte bus).2) bus
    with ⟨c2, b2, res⟩
  rw [hE] at he hnm
  rcases res with e2 | c
  · rw [noErrMutation_mk_err] at hnm
    simpa using hnm
  · simp at he

theorem Cpu.step_exec_cycles (cpu : Cpu) (bus : Bus) (c : Nat)
    (hc : (cpu.step_exec bus).result = Except.ok c) :
    cycleOk c = true := by
  have hcy := Cpu.execute_base_resultCyclesOk (cpu.fetch_byte bus).1 ((cpu.fetch_byte bus).2) bus
  unfold Cpu.step_exec at hc
  rcases hE : (cpu.fetch_byte bus).1.execute_base ((cpu.fetch_byte bus).2) bus
    with ⟨c2, b2, res⟩
  rw [hE] at hc hcy
  rcases res with e2 | n
  · simp at hc
  · simp at hc
    subst hc
    simpa using hcy

/-- The opcode-fetch path of a step is taken exactly when the step is not a
STOP idle, not an interrupt dispatch, and not a HALT idle. -/
def Cpu.reaches_fetch (cpu : Cpu) (bus : Bus) : Prop :=
  (cpu.stopped → bus.pending_interrupts ≠ 0) ∧
    ¬(cpu.ime = true ∧ bus.pending_interrupts ≠ 0) ∧
    (cpu.halted → bus.pending_interrupts ≠ 0)

/-- The step fetch-executes the EI opcode: it reaches the fetch and the byte
at PC is 0xFB. -/
def GameBoy.executes_ei (gb : GameBoy) : Prop :=
  Cpu.reaches_fetch gb.cpu gb.bus ∧ gb.bus.read_byte gb.cpu.pc = 0xFB

@[simp] theorem Cpu.fetch_byte_pc (cpu : Cpu) (bus : Bus) :
    (cpu.fetch_byte bus).1.pc =
      if cpu.halt_bug then cpu.pc else (cpu.pc + 1) % 65536 := by
  unfold Cpu.fetch_byte; split <;> simp_all

@[simp] theorem Cpu.fetch_byte_halt_bug (cpu : Cpu) (bus : Bus) :
    (cpu.fetch_byte bus).1.halt_bug = false := by
  unfold Cpu.fetch_byte; split <;> simp_all

theorem Cpu.step_main_inv (cpu : Cpu) (bus : Bus)
    (h : 0 < cpu.ime_delay → cpu.ime = false)
    (hEI : bus.read_byte cpu.pc = 0xFB →
      ¬(cpu.ime = true ∧ bus.pending_interrupts ≠ 0) →
      (cpu.halted = true → bus.pending_interrupts ≠ 0) → cpu.ime = false) :
    0 < (cpu.step_main bus).cpu.ime_delay → (cpu.step_main bus).cpu.ime = false := by
  simp only [Cpu.step_main]
  by_cases h1 : cpu.ime = true ∧ bus.pending_interrupts ≠ 0
  · rw [if_pos h1]
    simp
  · rw [if_neg h1]
    by_cases h2 : cpu.halted = true
    · rw [if_pos h2]
      by_cases h3 : bus.pending_interrupts ≠ 0
      · rw [if_pos h3]
        exact Cpu.step_exec_inv { cpu with halted := false } bus h
          (fun hread => hEI hread h1 (fun _ => h3))
      · rw [if_neg h3]
        simpa using h
    · rw [if_neg h2]
      exact Cpu.step_exec_inv cpu bus h
        (fun hread => hEI hread h1 (fun hh => absurd hh h2))

theorem Cpu.step_inv (cpu : Cpu) (bus : Bus)
    (h : 0 < cpu.ime_delay → cpu.ime = false)
    (hEI : Cpu.reaches_fetch cpu bus → bus.read_byte cpu.pc = 0xFB → cpu.ime = false) :
    0 < (cpu.step bus).cpu.ime_delay → (cpu.step bus).cpu.ime = false := by
  simp only [Cpu.step]
  by_cases h1 : cpu.stopped = true
  · rw [if_pos h1]
    by_cases h2 : bus.pending_interrupts ≠ 0
    · rw [if_pos h2]
      exact Cpu.step_main_inv { cpu with stopped := false } bus h
        (fun hread hni hh => hEI ⟨fun _ => h2, hni, hh⟩ hread)
    · rw [if_neg h2]
      simpa using h
  · rw [if_neg h1]
    exact Cpu.step_main_inv cpu bus h
      (fun hread hni hh => hEI ⟨fun hst => absurd hst h1, hni, hh⟩ hread)

theorem Cpu.step_main_f_mask (cpu : Cpu) (bus : Bus)
    (h : cpu.regs.f &&& 0x0F = 0) :
    (cpu.step_main bus).cpu.regs.f &&& 0x0F = 0 := by
  simp only [Cpu.step_main]
  by_cases h1 : cpu.ime = true ∧ bus.pending_interrupts ≠ 0
  · rw [if_pos h1]
    simpa using h
  · rw [if_neg h1]
    by_cases h2 : cpu.halted = true
    · rw [if_pos h2]
      by_cases h3 : bus.pending_interrupts ≠ 0
      · rw [if_pos h3]
        exact Cpu.step_exec_f_mask { cpu with halted := false } bus h
      · rw [if_neg h3]
        simpa using h
    · rw [if_neg h2]
      exact Cpu.step_exec_f_mask cpu bus h

theorem Cpu.step_f_mask (cpu : Cpu) (bus : Bus)
    (h : cpu.regs.f &&& 0x0F = 0) :
    (cpu.step bus).cpu.regs.f &&& 0x0F = 0 := by
  simp only [Cpu.step]
  by_cases h1 : cpu.stopped = true
  · rw [if_pos h1]
    by_cases h2 : bus.pending_interrupts ≠ 0
    · rw [if_pos h2]
      exact Cpu.step_main_f_mask { cpu with stopped := false } bus h
    · rw [if_neg h2]
      simpa using h
  · rw [if_neg h1]
    exact Cpu.step_main_f_mask cpu bus h

theorem Cpu.step_main_cycles (cpu : Cpu) (bus : Bus) (c : Nat)
    (hc : (cpu.step_main bus).result = Except.ok c) :
    cycleOk c = true := by
  rw [Cpu.step_main] at hc
  by_cases h1 : cpu.ime = true ∧ bus.pending_interrupts ≠ 0
  · rw [if_pos h1] at hc
    simp at hc
    subst hc
    simp
  · rw [if_neg h1] at hc
    by_cases h2 : cpu.halted = true
    · rw [if_pos h2] at hc
      by_cases h3 : bus.pending_interrupts ≠ 0
      · rw [if_pos h3] at hc
        exact Cpu.step_exec_cycles _ bus c hc
      · rw [if_neg h3] at hc
        simp at hc
        subst hc
        rfl
    · rw [if_neg h2] at hc
      exact Cpu.step_exec_cycles cpu bus c hc

theorem Cpu.step_cycles (cpu : Cpu) (bus : Bus) (c : Nat)
    (hc : (cpu.step bus).result = Except.ok c) :
    cycleOk c = true := by
  rw [Cpu.step] at hc
  by_cases h1 : cpu.stopped = true
  · rw [if_pos h1] at hc
    by_cases h2 : bus.pending_interrupts ≠ 0
    · rw [if_pos h2] at hc
      exact Cpu.step_main_cycles _ bus c hc
    · rw [if_neg h2] at hc
      simp at hc
      subst hc
      rfl
  · rw [if_neg h1] at hc
    exact Cpu.step_main_cycles cpu bus c hc

theorem Cpu.step_main_err (cpu : Cpu) (bus : Bus) (e : EmuError)
    (he : (cpu.step_main bus).result = Except.error e) :
    (cpu.step_main bus).bus = bus ∧
      (cpu.step_main bus).cpu.regs = cpu.regs ∧
      (cpu.step_main bus).cpu.sp = cpu.sp ∧
      (cpu.step_main bus).cpu.ime = cpu.ime ∧
      (cpu.step_main bus).cpu.ime_delay = cpu.ime_delay ∧
      (cpu.step_main bus).cpu.halted = false ∧
      (cpu.step_main bus).cpu.stopped = cpu.stopped ∧
      (cpu.step_main bus).cpu.halt_bug = false ∧
      (cpu.step_main bus).cpu.pc =
        (if cpu.halt_bug then cpu.pc else (cpu.pc + 1) % 65536) := by
  rw [Cpu.step_main] at he ⊢
  by_cases h1 : cpu.ime = true ∧ bus.pending_interrupts ≠ 0
  · rw [if_pos h1] at he
    simp at he
  · rw [if_neg h1] at he ⊢
    by_cases h2 : cpu.halted = true
    · rw [if_pos h2] at he ⊢
      by_cases h3 : bus.pending_interrupts ≠ 0
      · rw [if_pos h3] at he ⊢
        obtain ⟨hcpu, hbus⟩ := Cpu.step_exec_err { cpu with halted := false } bus e he
        rw [hcpu, hbus]
        simp
      · rw [if_neg h3] at he
        simp at he
    · rw [if_neg h2] at he ⊢
      obtain ⟨hcpu, hbus⟩ := Cpu.step_exec_err cpu bus e he
      rw [hcpu, hbus]
      simp
      simpa using h2

theorem Cpu.step_err (cpu : Cpu) (bus : Bus) (e : EmuError)
    (he : (cpu.step bus).result = Except.error e) :
    (cpu.step bus).bus = bus ∧
      (cpu.step bus).cpu.regs = cpu.regs ∧
      (cpu.step bus).cpu.sp = cpu.sp ∧
      (cpu.step bus).cpu.ime = cpu.ime ∧
      (cpu.step bus).cpu.ime_delay = cpu.ime_delay ∧
      (cpu.step bus).cpu.halted = false ∧
      (cpu.step bus).cpu.stopped = false ∧
      (cpu.step bus).cpu.halt_bug = false ∧
      (cpu.step bus).cpu.pc =
        (if cpu.halt_bug then cpu.pc else (cpu.pc + 1) % 65536) := by
  rw [Cpu.step] at he ⊢
  by_cases h1 : cpu.stopped = true
  · rw [if_pos h1] at he ⊢
    by_cases h2 : bus.pending_interrupts ≠ 0
    · rw [if_pos h2] at he ⊢
      simpa using Cpu.step_main_err { cpu with stopped := false } bus e he
    · rw [if_neg h2] at he
      simp at he
  · rw [if_neg h1] at he ⊢
    have hm := Cpu.step_main_err cpu bus e he
    refine ⟨hm.1, hm.2.1, hm.2.2.1, hm.2.2.2.1, hm.2.2.2.2.1, hm.2.2.2.2.2.1, ?_,
      hm.2.2.2.2.2.2.2⟩
    rw [hm.2.2.2.2.2.2.1]
    simpa using h1

/-
The claims.
-/

def illegalOpcodes : List Nat :=
  [0xD3, 0xDB, 0xDD, 0xE3, 0xE4, 0xEB, 0xEC, 0xED, 0xF4, 0xFC, 0xFD]

/-- A single step of a freshly initialized GameBoy with the opcode placed at
PC (and three zero bytes after it, as in the repository's coverage test). -/
def freshStep (op : Nat) : StepResult :=
  (GameBoy.with_program 0 [op, 0x00, 0x00, 0x00]).step

def resultOk : Except EmuError Nat → Bool
  | .ok _ => true
  | .error _ => false

/-- Claim C1 (counterexample): the invariant `ime_delay > 0 → ime = false` is
not preserved by every step.  Running [EI, NOP, EI]: after two steps the state
satisfies the invariant (ime = true, ime_delay = 0), but the third step
executes EI while IME is already set and ends with ime = true and
ime_delay = 1. -/
theorem claim_C1_counterexample :
    ((GameBoy.with_program 0 [0xFB, 0x00, 0xFB]).stepN 2).cpu.ime = true ∧
      ((GameBoy.with_program 0 [0xFB, 0x00, 0xFB]).stepN 2).cpu.ime_delay = 0 ∧
      ((((GameBoy.with_program 0 [0xFB, 0x00, 0xFB]).stepN 2).step).gb.cpu.ime = true) ∧
      ((((GameBoy.with_program 0 [0xFB, 0x00, 0xFB]).stepN 2).step).gb.cpu.ime_delay = 1) := by
  decide

/-- Claim C1 (amended): the invariant `ime_delay > 0 → ime = false` is
preserved by every Cpu::step except one that fetch-executes the EI opcode
(0xFB) while IME is already true; under the extra hypothesis that EI is only
executed with IME clear, every step preserves the invariant. -/
theorem claim_C1_amended_preservation (gb : GameBoy)
    (h : 0 < gb.cpu.ime_delay → gb.cpu.ime = false)
    (hEI : gb.executes_ei → gb.cpu.ime = false) :
    0 < (gb.step).gb.cpu.ime_delay → (gb.step).gb.cpu.ime = false := by
  have hs := Cpu.step_inv gb.cpu gb.bus h (fun hrf hread => hEI ⟨hrf, hread⟩)
  simpa [GameBoy.step] using hs

/-- Claim C1 witness: the amended preservation theorem applied to a freshly
initialized machine executing EI with IME clear: the step ends with
ime_delay = 1 and IME still false. -/
theorem claim_C1_witness :
    ((GameBoy.with_program 0 [0xFB]).step).gb.cpu.ime = false :=
  claim_C1_amended_preservation (GameBoy.with_program 0 [0xFB])
    (by decide) (fun _ => by decide) (by decide)

/-- Claim C2: stepping a freshly initialized GameBoy with opcode op at PC
returns IllegalOpcode(op) exactly for the eleven illegal opcodes and a cycle
count for every other opcode byte. -/
theorem claim_C2_opcode_coverage (op : Nat) (hop : op < 256) :
    (op ∈ illegalOpcodes →
      (freshStep op).result = Except.error (.IllegalOpcode op)) ∧
    (op ∉ illegalOpcodes → ∃ c, (freshStep op).result = Except.ok c) := by
  have H : ∀ o, o < 256 →
      (o ∈ illegalOpcodes →
        (freshStep o).result = Except.error (.IllegalOpcode o)) ∧
      (o ∉ illegalOpcodes → resultOk (freshStep o).result = true) := by decide
  obtain ⟨h1, h2⟩ := H op hop
  refine ⟨h1, fun hn => ?_⟩
  have hok := h2 hn
  rcases hr : (freshStep op).result with e | c
  · rw [hr] at hok
    simp [resultOk] at hok
  · exact ⟨c, rfl⟩

/-- Claim C2 witness: opcode 0xD3 is illegal and opcode 0x00 steps
successfully. -/
theorem claim_C2_witness :
    ((0xD3 ∈ illegalOpcodes →
        (freshStep 0xD3).result = Except.error (.IllegalOpcode 0xD3)) ∧
      (0xD3 ∉ illegalOpcodes → ∃ c, (freshStep 0xD3).result = Except.ok c)) ∧
    ((0x00 ∈ illegalOpcodes →
        (freshStep 0x00).result = Except.error (.IllegalOpcode 0x00)) ∧
      (0x00 ∉ illegalOpcodes → ∃ c, (freshStep 0x00).result = Except.ok c)) :=
  ⟨claim_C2_opcode_coverage 0xD3 (by decide), claim_C2_opcode_coverage 0x00 (by decide)⟩

/-- Claim C3 (counterexample): a step that returns IllegalOpcode need not
advance PC by one.  After HALT with IME clear and a pending interrupt
(program [0x76, 0xD3], IE = IF = VBlank), the halt_bug flag is set; the next
step fetches the illegal opcode 0xD3 without advancing PC, so PC stays 1. -/
theorem claim_C3_counterexample :
    let g0 : GameBoy :=
      { cpu := Cpu.init
        bus := ((Bus.init.load_bytes 0 [0x76, 0xD3]).write_byte IE_ADDR
            INTERRUPT_VBLANK).write_byte IF_ADDR INTERRUPT_VBLANK }
    let g1 := g0.stepN 1
    g1.cpu.pc = 1 ∧ g1.cpu.halt_bug = true ∧
      (g1.step).result = Except.error (.IllegalOpcode 0xD3) ∧
      (g1.step).gb.cpu.pc = 1 ∧
      (g1.step).gb.cpu.pc ≠ (g1.cpu.pc + 1) % 65536 := by
  decide

/-- Claim C3 (amended): when Cpu::step returns IllegalOpcode, the bus (memory,
timer, IF, IE, serial) is untouched and not ticked, and registers, SP, IME and
ime_delay are unchanged; halted and stopped are false afterwards (a pending
interrupt may have cleared them on the way to the fetch), halt_bug is consumed,
and PC advances by one unless halt_bug was set, in which case PC is
unchanged. -/
theorem claim_C3_amended_illegal_mutation (gb : GameBoy) (e : EmuError)
    (he : (gb.step).result = Except.error e) :
    (gb.step).gb.bus = gb.bus ∧
      (gb.step).gb.cpu.regs = gb.cpu.regs ∧
      (gb.step).gb.cpu.sp = gb.cpu.sp ∧
      (gb.step).gb.cpu.ime = gb.cpu.ime ∧
      (gb.step).gb.cpu.ime_delay = gb.cpu.ime_delay ∧
      (gb.step).gb.cpu.halted = false ∧
      (gb.step).gb.cpu.stopped = false ∧
      (gb.step).gb.cpu.halt_bug = false ∧
      (gb.step).gb.cpu.pc =
        (if gb.cpu.halt_bug then gb.cpu.pc else (gb.cpu.pc + 1) % 65536) := by
  have hs := Cpu.step_err gb.cpu gb.bus e (by simpa [GameBoy.step] using he)
  simpa [GameBoy.step] using hs

/-- Claim C3 witness: the amended theorem applied to a fresh machine with the
illegal opcode 0xD3 at PC. -/
theorem claim_C3_witness :
    (freshStep 0xD3).gb.bus = (GameBoy.with_program 0 [0xD3, 0x00, 0x00, 0x00]).bus ∧
      (freshStep 0xD3).gb.cpu.regs = (GameBoy.with_program 0 [0xD3, 0x00, 0x00, 0x00]).cpu.regs ∧
      (freshStep 0xD3).gb.cpu.sp = (GameBoy.with_program 0 [0xD3, 0x00, 0x00, 0x00]).cpu.sp ∧
      (freshStep 0xD3).gb.cpu.ime = (GameBoy.with_program 0 [0xD3, 0x00, 0x00, 0x00]).cpu.ime ∧
      (freshStep 0xD3).gb.cpu.ime_delay =
        (GameBoy.with_program 0 [0xD3, 0x00, 0x00, 0x00]).cpu.ime_delay ∧
      (freshStep 0xD3).gb.cpu.halted = false ∧
      (freshStep 0xD3).gb.cpu.stopped = false ∧
      (freshStep 0xD3).gb.cpu.halt_bug = false ∧
      (freshStep 0xD3).gb.cpu.pc =
        (if (GameBoy.with_program 0 [0xD3, 0x00, 0x00, 0x00]).cpu.halt_bug then
          (GameBoy.with_program 0 [0xD3, 0x00, 0x00, 0x00]).cpu.pc
        else ((GameBoy.with_program 0 [0xD3, 0x00, 0x00, 0x00]).cpu.pc + 1) % 65536) :=
  claim_C3_amended_illegal_mutation (GameBoy.with_program 0 [0xD3, 0x00, 0x00, 0x00])
    (.IllegalOpcode 0xD3) (by decide)

/-- Claim C6: every step (successful or failing) keeps the low nibble of the
F register zero: every flag write and POP AF / set_af masks it. -/
theorem claim_C6_flag_mask (gb : GameBoy)
    (h : gb.cpu.regs.f &&& 0x0F = 0) :
    (gb.step).gb.cpu.regs.f &&& 0x0F = 0 := by
  simpa [GameBoy.step] using Cpu.step_f_mask gb.cpu gb.bus h

/-- Claim C6 witness: the flag-mask theorem applied to a fresh machine
executing INC A. -/
theorem claim_C6_witness :
    ((GameBoy.with_program 0 [0x3C]).step).gb.cpu.regs.f &&& 0x0F = 0 :=
  claim_C6_flag_mask (GameBoy.with_program 0 [0x3C]) (by decide)

/-- Claim C10: every cycle count a step reports is 4, 8, 12, 16, 20 or 24,
across instructions, CB-prefixed instructions, HALT/STOP idling and interrupt
dispatch. -/
theorem claim_C10_cycle_set (gb : GameBoy) (c : Nat)
    (hc : (gb.step).result = Except.ok c) :
    c = 4 ∨ c = 8 ∨ c = 12 ∨ c = 16 ∨ c = 20 ∨ c = 24 := by
  have hcy := Cpu.step_cycles gb.cpu gb.bus c (by simpa [GameBoy.step] using hc)
  simp [cycleOk] at hcy
  tauto

/-- Claim C10 witness: the cycle-set theorem applied to a fresh machine
executing NOP, which reports 4 cycles. -/
theorem claim_C10_witness :
    (4 : Nat) = 4 ∨ (4 : Nat) = 8 ∨ (4 : Nat) = 12 ∨ (4 : Nat) = 16 ∨
      (4 : Nat) = 20 ∨ (4 : Nat) = 24 :=
  claim_C10_cycle_set (GameBoy.with_program 0 [0x00]) 4 (by decide)

/-- The dispatch-cancellation scenario of the spec: PC = 0x0200, SP = 0x0000,
IME set, IE = IF = Timer, a NOP at PC. -/
def cancelGB : GameBoy :=
  { cpu := { Cpu.init with pc := 0x0200, sp := 0x0000, ime := true }
    bus := ((Bus.init.load_bytes 0x0200 [0x00]).write_byte IE_ADDR
        INTERRUPT_TIMER).write_byte IF_ADDR INTERRUPT_TIMER }

/-- Claim C4: if the re-read pending set is zero after the high-byte push of
interrupt dispatch, the low byte of PC is still pushed, PC becomes 0x0000, the
dispatch reports 20 cycles, and the final bus is exactly the bus after the two
pushes (no IF acknowledge bit is cleared); instantiated by the concrete
cancellation scenario, where the high-byte push lands on IE. -/
theorem claim_C4_dispatch_cancellation :
    (∀ (cpu : Cpu) (bus : Bus),
      (bus.write_byte ((cpu.sp + 65535) % 65536)
          ((cpu.pc >>> 8) &&& 0xFF)).pending_interrupts = 0 →
      (cpu.service_interrupt bus).1.pc = 0x0000 ∧
        (cpu.service_interrupt bus).2.2 = 20 ∧
        (cpu.service_interrupt bus).1.sp = ((cpu.sp + 65535) % 65536 + 65535) % 65536 ∧
        (cpu.service_interrupt bus).2.1 =
          (bus.write_byte ((cpu.sp + 65535) % 65536)
              ((cpu.pc >>> 8) &&& 0xFF)).write_byte
            (((cpu.sp + 65535) % 65536 + 65535) % 65536) (cpu.pc &&& 0xFF)) ∧
    ((cancelGB.step).result = Except.ok 20 ∧
      (cancelGB.step).gb.cpu.pc = 0x0000 ∧
      (cancelGB.step).gb.cpu.sp = 0xFFFE ∧
      (cancelGB.step).gb.bus.read_byte IE_ADDR = INTERRUPT_LCD ∧
      (cancelGB.step).gb.bus.read_byte IF_ADDR &&& INTERRUPT_TIMER = INTERRUPT_TIMER) := by
  constructor
  · intro cpu bus h
    simp [Cpu.service_interrupt, h]
  · decide

/-- Claim C4 witness: the cancellation branch applied to the concrete
scenario state. -/
theorem claim_C4_witness :
    (cancelGB.cpu.service_interrupt cancelGB.bus).1.pc = 0x0000 ∧
      (cancelGB.cpu.service_interrupt cancelGB.bus).2.2 = 20 ∧
      (cancelGB.cpu.service_interrupt cancelGB.bus).1.sp =
        ((cancelGB.cpu.sp + 65535) % 65536 + 65535) % 65536 ∧
      (cancelGB.cpu.service_interrupt cancelGB.bus).2.1 =
        (cancelGB.bus.write_byte ((cancelGB.cpu.sp + 65535) % 65536)
            ((cancelGB.cpu.pc >>> 8) &&& 0xFF)).write_byte
          (((cancelGB.cpu.sp + 65535) % 65536 + 65535) % 65536)
          (cancelGB.cpu.pc &&& 0xFF) :=
  claim_C4_dispatch_cancellation.1 cancelGB.cpu cancelGB.bus (by decide)

/-- Claim C5: TIMA overflow behaviour.  Incrementing TIMA at 0xFF zeroes it
and starts a 4-cycle reload delay; while the delay counts down TIMA stays and
reads 0x00 and the timer interrupt is not yet raised; when the delay reaches 0
with TIMA still 0, TIMA is reloaded from TMA and IF bit 2 is set; a TIMA write
cancels the pending reload.  The concrete scenario runs the timer with
TAC = 0b101 through overflow, reload, and a cancelling write. -/
theorem claim_C5_timer_overflow_reload :
    (∀ t : Timer, t.tima = 0xFF →
      t.increment_tima = { t with tima := 0x00, overflow_reload_delay := some 4 }) ∧
    (∀ (t : Timer) (fl : Nat), t.overflow_reload_delay = some 0 → t.tima = 0 →
      t.handle_reload fl =
        ({ t with tima := t.tma, overflow_reload_delay := none },
          fl ||| INTERRUPT_TIMER)) ∧
    (∀ (t : Timer) (fl d : Nat), t.overflow_reload_delay = some (d + 1) →
      t.handle_reload fl = ({ t with overflow_reload_delay := some d }, fl)) ∧
    (∀ (t : Timer) (v : Nat),
      t.write_tima v = { t with tima := v, overflow_reload_delay := none }) ∧
    (let b0 := (Bus.init.write_byte TAC_ADDR 0b101).write_byte TIMA_ADDR 0x00
     let b1 := b0.tick 16
     let b2 := ((b1.write_byte TIMA_ADDR 0xFF).write_byte TMA_ADDR 0xAC).write_byte
       IF_ADDR 0x00
     let b3 := b2.tick 16
     let b4 := b3.tick 4
     let b5 := (b3.write_byte TIMA_ADDR 0x05).tick 8
     b1.read_byte TIMA_ADDR = 0x01 ∧
       b3.read_byte TIMA_ADDR = 0x00 ∧
       b3.timer.overflow_reload_delay = some 3 ∧
       b3.read_byte IF_ADDR &&& INTERRUPT_TIMER = 0 ∧
       b4.read_byte TIMA_ADDR = 0xAC ∧
       b4.read_byte IF_ADDR &&& INTERRUPT_TIMER ≠ 0 ∧
       b5.read_byte TIMA_ADDR = 0x05 ∧
       b5.read_byte IF_ADDR &&& INTERRUPT_TIMER = 0 ∧
       b5.timer.overflow_reload_delay = none) := by
  refine ⟨fun t h => ?_, fun t fl h1 h2 => ?_, fun t fl d h => ?_, fun t v => rfl, ?_⟩
  · simp [Timer.increment_tima, h]
  · simp [Timer.handle_reload, h1, h2]
  · simp [Timer.handle_reload, h]
  · decide

/-- Claim C5 witness: the overflow, reload, countdown and cancel branches
applied to concrete timers. -/
theorem claim_C5_witness :
    ({ Timer.init with tima := 0xFF } : Timer).increment_tima =
      { ({ Timer.init with tima := 0xFF } : Timer) with
          tima := 0x00, overflow_reload_delay := some 4 } ∧
      ({ Timer.init with tma := 0xAC, overflow_reload_delay := some 0 } : Timer).handle_reload 0 =
        ({ ({ Timer.init with tma := 0xAC, overflow_reload_delay := some 0 } : Timer) with
            tima := ({ Timer.init with tma := 0xAC, overflow_reload_delay := some 0 } : Timer).tma,
            overflow_reload_delay := none }, 0 ||| INTERRUPT_TIMER) ∧
      ({ Timer.init with overflow_reload_delay := some 3 } : Timer).handle_reload 0 =
        ({ ({ Timer.init with overflow_reload_delay := some 3 } : Timer) with
            overflow_reload_delay := some 2 }, 0) ∧
      ({ Timer.init with overflow_reload_delay := some 2 } : Timer).write_tima 0x05 =
        { ({ Timer.init with overflow_reload_delay := some 2 } : Timer) with
            tima := 0x05, overflow_reload_delay := none } :=
  ⟨claim_C5_timer_overflow_reload.1 _ rfl,
    claim_C5_timer_overflow_reload.2.1 _ 0 rfl rfl,
    claim_C5_timer_overflow_reload.2.2.1 _ 0 2 rfl,
    claim_C5_timer_overflow_reload.2.2.2.1 _ 0x05⟩

theorem Cpu.execute_ei (cpu : Cpu) (bus : Bus) :
    cpu.execute_base 0xFB bus = ⟨{ cpu with ime_delay := 2 }, bus, .ok 4⟩ := by
  simp +decide [Cpu.execute_base]

theorem Cpu.step_exec_ei (cpu : Cpu) (bus : Bus)
    (hr : bus.read_byte cpu.pc = 0xFB) (hi : cpu.ime = false) :
    (cpu.step_exec bus).cpu.ime = false ∧ (cpu.step_exec bus).cpu.ime_delay = 1 := by
  unfold Cpu.step_exec
  have h2 : (cpu.fetch_byte bus).2 = 0xFB := by simpa using hr
  rw [h2, Cpu.execute_ei]
  simp +decide [Cpu.advance_ime_delay, hi]

theorem Cpu.advance_from_one (cpu : Cpu) (h : cpu.ime_delay = 1) :
    cpu.advance_ime_delay.ime = true ∧ cpu.advance_ime_delay.ime_delay = 0 := by
  simp [Cpu.advance_ime_delay, h]

/-- The EI-latency scenario of the spec: program [EI, NOP], IE = IF = Timer,
RETI at the timer vector. -/
def eiGB : GameBoy :=
  { cpu := Cpu.init
    bus := (((Bus.init.load_bytes 0 [0xFB, 0x00]).load_bytes 0x50 [0xD9]).write_byte
        IE_ADDR INTERRUPT_TIMER).write_byte IF_ADDR INTERRUPT_TIMER }

/-- Claim C7: EI sets ime_delay = 2 without touching IME, so with IME clear
the step that executes EI ends with IME still false and ime_delay = 1; the
next retired instruction advances the delay to 0 and sets IME; in the
concrete [EI, NOP] run with a pending timer interrupt, IME is false after
step 1, true after step 2 with PC = 2, and step 3 dispatches the timer
interrupt to 0x50. -/
theorem claim_C7_ei_latency :
    (∀ (cpu : Cpu) (bus : Bus),
      cpu.execute_base 0xFB bus = ⟨{ cpu with ime_delay := 2 }, bus, .ok 4⟩) ∧
    (∀ (cpu : Cpu) (bus : Bus), bus.read_byte cpu.pc = 0xFB → cpu.ime = false →
      (cpu.step_exec bus).cpu.ime = false ∧ (cpu.step_exec bus).cpu.ime_delay = 1) ∧
    (∀ cpu : Cpu, cpu.ime_delay = 1 →
      cpu.advance_ime_delay.ime = true ∧ cpu.advance_ime_delay.ime_delay = 0) ∧
    ((eiGB.stepN 1).cpu.ime = false ∧
      (eiGB.stepN 1).cpu.ime_delay = 1 ∧
      (eiGB.stepN 2).cpu.ime = true ∧
      (eiGB.stepN 2).cpu.pc = 2 ∧
      ((eiGB.stepN 2).step).result = Except.ok 20 ∧
      (eiGB.stepN 3).cpu.pc = 0x50 ∧
      (eiGB.stepN 3).bus.read_byte IF_ADDR &&& INTERRUPT_TIMER = 0) :=
  ⟨Cpu.execute_ei, Cpu.step_exec_ei, Cpu.advance_from_one, by decide⟩

/-- Claim C7 witness: the EI step facts applied to the concrete EI machine. -/
theorem claim_C7_witness :
    (eiGB.cpu.step_exec eiGB.bus).cpu.ime = false ∧
      (eiGB.cpu.step_exec eiGB.bus).cpu.ime_delay = 1 :=
  claim_C7_ei_latency.2.1 eiGB.cpu eiGB.bus (by decide) (by decide)

theorem Cpu.execute_halt_pending (cpu : Cpu) (bus : Bus)
    (hi : cpu.ime = false) (hp : bus.pending_interrupts ≠ 0) :
    cpu.execute_base 0x76 bus = ⟨{ cpu with halt_bug := true }, bus, .ok 4⟩ := by
  simp +decide [Cpu.execute_base, hi, hp]

theorem Cpu.fetch_with_halt_bug (cpu : Cpu) (bus : Bus) (h : cpu.halt_bug = true) :
    cpu.fetch_byte bus = ({ cpu with halt_bug := false }, bus.read_byte cpu.pc) := by
  simp [Cpu.fetch_byte, h]

/-- The HALT-bug scenario of the spec: IME = 0, IE = IF = VBlank, program
[HALT, INC B, NOP]. -/
def haltBugGB : GameBoy :=
  { cpu := Cpu.init
    bus := ((Bus.init.load_bytes 0 [0x76, 0x04, 0x00]).write_byte IE_ADDR
        INTERRUPT_VBLANK).write_byte IF_ADDR INTERRUPT_VBLANK }

/-- Claim C8: HALT with IME clear and a pending interrupt sets halt_bug
instead of halting, and a fetch with halt_bug set reads the byte at PC
without advancing PC; in the concrete [HALT, INC B] run, step 1 leaves
halted false with PC = 1, step 2 executes INC B (B = 1) with PC still 1, and
step 3 executes INC B again (B = 2) with PC = 2. -/
theorem claim_C8_halt_bug :
    (∀ (cpu : Cpu) (bus : Bus), cpu.ime = false → bus.pending_interrupts ≠ 0 →
      cpu.execute_base 0x76 bus = ⟨{ cpu with halt_bug := true }, bus, .ok 4⟩) ∧
    (∀ (cpu : Cpu) (bus : Bus), cpu.halt_bug = true →
      cpu.fetch_byte bus = ({ cpu with halt_bug := false }, bus.read_byte cpu.pc)) ∧
    ((haltBugGB.stepN 1).cpu.halted = false ∧
      (haltBugGB.stepN 1).cpu.halt_bug = true ∧
      (haltBugGB.stepN 1).cpu.pc = 1 ∧
      (haltBugGB.stepN 2).cpu.regs.b = 1 ∧
      (haltBugGB.stepN 2).cpu.pc = 1 ∧
      (haltBugGB.stepN 3).cpu.regs.b = 2 ∧
      (haltBugGB.stepN 3).cpu.pc = 2) :=
  ⟨Cpu.execute_halt_pending, Cpu.fetch_with_halt_bug, by decide⟩

/-- Claim C8 witness: the HALT-bug execute and fetch facts applied to the
concrete scenario state. -/
theorem claim_C8_witness :
    haltBugGB.cpu.execute_base 0x76 haltBugGB.bus =
      ⟨{ haltBugGB.cpu with halt_bug := true }, haltBugGB.bus, .ok 4⟩ :=
  claim_C8_halt_bug.1 haltBugGB.cpu haltBugGB.bus (by decide) (by decide)

/-- F register byte assembled from the four flag bits. -/
def flagByte (z n h c : Bool) : Nat :=
  (if z then FLAG_Z else 0) ||| (if n then FLAG_N else 0) |||
    (if h then FLAG_H else 0) ||| (if c then FLAG_C else 0)

/-- A CPU whose accumulator and flags are the given values (all other state
zeroed), the input of one DAA table row. -/
def daaInput (a : Nat) (z n h c : Bool) : Cpu :=
  { Cpu.init with regs := { Registers.init with a := a, f := flagByte z n h c } }

/-- Claim C9: for every A below 256 and every combination of the four flags,
DAA follows the table: with N clear it adds 0x06 when H or a low nibble above
9 demands it and adds 0x60 with carry-out when C or A above 0x99 demands it;
with N set it subtracts the correction determined by H and C alone; then
Z = (A = 0), H = 0, C = carry, and N is preserved. -/
theorem claim_C9_daa :
    ∀ a < 256, ∀ z n h c : Bool,
      (daaInput a z n h c).daa.regs.a =
        (if n then
          (a + 256 -
            ((if h then 0x06 else 0) ||| (if c then 0x60 else 0))) % 256
        else
          (a + ((if h ∨ 9 < a &&& 0x0F then 0x06 else 0) |||
            (if c ∨ 0x99 < a then 0x60 else 0))) % 256) ∧
      (daaInput a z n h c).daa.regs.flag_z =
        ((daaInput a z n h c).daa.regs.a == 0) ∧
      (daaInput a z n h c).daa.regs.flag_h = false ∧
      (daaInput a z n h c).daa.regs.flag_c = (if n then c else (c || decide (0x99 < a))) ∧
      (daaInput a z n h c).daa.regs.flag_n = n := by
  decide

/-- Claim C9 witness: the DAA table theorem applied to the concrete rows
A = 0x9A with H and C set after an add, and A = 0x73 with N, H, C set after a
subtract. -/
theorem claim_C9_witness :
    ((daaInput 0x9A false false true true).daa.regs.a = 0x00 ∧
      (daaInput 0x9A false false true true).daa.regs.flag_z = true ∧
      (daaInput 0x9A false false true true).daa.regs.flag_h = false ∧
      (daaInput 0x9A false false true true).daa.regs.flag_c = true ∧
      (daaInput 0x9A false false true true).daa.regs.flag_n = false) ∧
    ((daaInput 0x73 false true true true).daa.regs.a = 0x0D ∧
      (daaInput 0x73 false true true true).daa.regs.flag_n = true ∧
      (daaInput 0x73 false true true true).daa.regs.flag_h = false ∧
      (daaInput 0x73 false true true true).daa.regs.flag_c = true) := by
  have h1 := claim_C9_daa 0x9A (by decide) false false true true
  have h2 := claim_C9_daa 0x73 (by decide) false true true true
  revert h1 h2
  decide

end VibeGB
